import Mathlib

/-!
The ICMP echo engine of cping (icmp/sender.go).

A shallow embedding of the `icmp` package of `sewh/cping`.

* Go `int` values are `Int`; where the source computes with them (the
  round-trip times and their sum in `Stats`, the payload length in
  `CraftPacket`) the result is reduced to the 64-bit range by `wrap64`.
  `uint16` values are `Nat` reduced `% 65536` where the source increments
  them, bytes are `Fin 256`. Memory is not bounded: a slice of any
  non-negative length can be made.
* `time.Time` values are represented by what `Stats` reads from them, their
  `UnixMilli()` value.
* A Go `error` is `Option Error`, `none` being `nil`.
* Calls that leave the package (the random source, the raw socket, the
  clock, the gopacket decoder) are represented by the value they return,
  supplied by the caller of the model.
* A function that can fail to return normally (a run-time panic, or a read
  loop that is still waiting when the supplied reads are used up) returns
  `Option`, `none` standing for "no normal return".
-/

namespace Cping

/-! ## Data model -/

abbrev Byte := Fin 256

/-- The value a 64-bit signed integer takes when the exact result of an
addition or subtraction is `x`: `x` reduced modulo `2^64` into the range from
`-2^63` to `2^63 - 1`. -/
def wrap64 (x : Int) : Int :=
  (x + 9223372036854775808) % 18446744073709551616 - 9223372036854775808

/-- The error values of the package (sender.go, lines 27-39), and `transport`
for an error produced by the operating system or a library. -/
inductive Error where
  | TimeoutExceeded
  | TTLExpired
  | SourceQuench
  | DestUnreachable
  | CouldNotFragment
  | UnknownPacket
  | BadIPVersion
  | BadIPAddress
  | transport (code : Nat)
  deriving DecidableEq, Repr

/-- The configuration record, config.go lines 21-30. -/
structure Config where
  IPVersion : Int
  DestIP : String
  Count : Int
  Size : Int
  Payload : List Byte
  TTL : Int
  TimeoutSecs : Int
  HelpMode : Bool
  deriving DecidableEq, Repr

/-- The default configuration, config.go lines 32-43. -/
def Default : Config :=
  { IPVersion := 4
    DestIP := ""
    Count := 5
    Size := 100
    Payload := [0xAB, 0xCD]
    TTL := 64
    TimeoutSecs := 2
    HelpMode := false }

/-- One recorded attempt, sender.go lines 41-45. `Sent` and `Received` hold
the `UnixMilli()` value of the time stamps. -/
structure Result where
  Error : Option Error
  Sent : Int
  Received : Int
  deriving DecidableEq, Repr

/-- The engine, sender.go lines 47-55. A connection is represented by the
handle the socket layer returned. -/
structure Sender where
  Config : Config
  ID : Nat
  Seq : Nat
  Conn : Option Nat
  IPv4Conn : Option Nat
  IPv6Conn : Option Nat
  Results : List Result
  deriving DecidableEq, Repr

/-- The constructor, sender.go lines 57-64: the fields it does not name take
their zero value. -/
def NewSender (c : Config) : Sender :=
  { Config := c
    ID := 0
    Seq := 0
    Conn := none
    IPv4Conn := none
    IPv6Conn := none
    Results := [] }

/-! ## Inbound packets -/

/-- The fields `Receive` reads from a decoded `layers.ICMPv4`: `Typ` and
`Code` are `TypeCode.Type()` and `TypeCode.Code()`. -/
structure ICMPv4 where
  Id : Nat
  Typ : Nat
  Code : Nat
  deriving DecidableEq, Repr

/-- The fields `Receive` reads from a decoded `layers.ICMPv6`, with the
identifier of the `layers.ICMPv6Echo` layer when the decoder produced one. -/
structure ICMPv6 where
  Typ : Nat
  Code : Nat
  Echo : Option Nat
  deriving DecidableEq, Repr

/-- What the gopacket decoder makes of the bytes of one read: the ICMPv4 layer
found when they are decoded from `LayerTypeIPv4` and the ICMPv6 layer found
when they are decoded from `LayerTypeICMPv6`, `none` when there is no such
layer. -/
structure Inbound where
  v4 : Option ICMPv4
  v6 : Option ICMPv6
  deriving DecidableEq, Repr

/-- The result of one `s.Conn.Read(buf)`. -/
inductive ReadEvent where
  | deadline
  | failed (e : Error)
  | data (pkt : Inbound)
  deriving DecidableEq, Repr

/-! Type and code numbers of `gopacket/layers`. -/

def ICMPv4TypeEchoReply : Nat := 0
def ICMPv4TypeDestinationUnreachable : Nat := 3
def ICMPv4TypeSourceQuench : Nat := 4
def ICMPv4TypeTimeExceeded : Nat := 11
def ICMPv4CodeFragmentationNeeded : Nat := 4
def ICMPv6TypeDestinationUnreachable : Nat := 1
def ICMPv6TypePacketTooBig : Nat := 2
def ICMPv6TypeTimeExceeded : Nat := 3
def ICMPv6TypeEchoReply : Nat := 129

/-! ## Receive -/

/-- The body of `case 4` in the read loop, sender.go lines 220-263, for one
decoded read. `none` is `continue`, `some r` is `return r`. -/
def receiveV4 (id : Nat) (layer : Option ICMPv4) : Option (Option Error) :=
  match layer with
  | some icmp =>
    if icmp.Id ≠ id then none
    else
      let t := icmp.Typ
      let c := icmp.Code
      if t = ICMPv4TypeEchoReply then some none
      else if t = ICMPv4TypeDestinationUnreachable then
        if c = ICMPv4CodeFragmentationNeeded then some (some Error.CouldNotFragment)
        else some (some Error.DestUnreachable)
      else if t = ICMPv4TypeSourceQuench then some (some Error.SourceQuench)
      else if t = ICMPv4TypeTimeExceeded then some (some Error.TTLExpired)
      else some (some Error.UnknownPacket)
  | none => none

/-- The body of `case 6` in the read loop, sender.go lines 265-300, for one
decoded read. `none` is falling out of the switch into the next iteration,
`some r` is `return r`. -/
def receiveV6 (id : Nat) (layer : Option ICMPv6) : Option (Option Error) :=
  match layer with
  | some icmp =>
    let t := icmp.Typ
    if t = ICMPv6TypeEchoReply then
      match icmp.Echo with
      | some identifier => if identifier = id then some none else none
      | none => some (some Error.UnknownPacket)
    else if t = ICMPv6TypeDestinationUnreachable then some (some Error.DestUnreachable)
    else if t = ICMPv6TypePacketTooBig then some (some Error.CouldNotFragment)
    else if t = ICMPv6TypeTimeExceeded then some (some Error.TTLExpired)
    else some (some Error.UnknownPacket)
  | none => none

/-- The `for` loop of `Receive`, sender.go lines 208-302, run over the reads
the socket delivers, in order. The result is `none` when the reads are used
up before the loop has returned. A version other than 4 and 6 matches no
case of the switch, so the read is dropped. -/
def receiveLoop (s : Sender) : List ReadEvent → Option (Option Error)
  | [] => none
  | ReadEvent.deadline :: _ => some (some Error.TimeoutExceeded)
  | ReadEvent.failed e :: _ => some (some e)
  | ReadEvent.data pkt :: rest =>
    if s.Config.IPVersion = 4 then
      match receiveV4 s.ID pkt.v4 with
      | some r => some r
      | none => receiveLoop s rest
    else if s.Config.IPVersion = 6 then
      match receiveV6 s.ID pkt.v6 with
      | some r => some r
      | none => receiveLoop s rest
    else receiveLoop s rest

/-- `Receive`, sender.go lines 195-305. `setDeadline` is what
`SetReadDeadline` returned and `reads` what the successive `Read` calls
return. Allocating the buffer panics for a negative `Size`, and calling
`SetReadDeadline` panics without connection. With `Size = 0` the buffer is
empty: every `Read` returns no bytes and no error at once, the deadline
included, nothing decodes from no bytes, and the loop never returns. -/
def Receive (s : Sender) (setDeadline : Option Error) (reads : List ReadEvent) :
    Option (Option Error) :=
  if s.Config.Size < 0 then none
  else
    match s.Conn with
    | none => none
    | some _ =>
      match setDeadline with
      | some e => some (some e)
      | none => if s.Config.Size = 0 then none else receiveLoop s reads

/-! ## Stats -/

/-- `PercentOf`, sender.go lines 66-68. The `float64` quotient is represented
by the exact rational; `none` stands for the division by a zero total, where
the `float64` result is not a number. -/
def PercentOf (part : Int) (total : Int) : Option Rat :=
  if total = 0 then none else some (((part : Rat) * 100) / (total : Rat))

/-- Go integer division `a / b`: truncated, and a run-time panic (`none`) for
a zero divisor. -/
def goDiv (a b : Int) : Option Int :=
  if b = 0 then none else some (Int.tdiv a b)

/-- The local variables of `Stats` that the loop updates. -/
structure StatsVars where
  attempts : Int
  succeeded : Int
  minrtt : Int
  maxrtt : Int
  avgrtt : Int
  deriving DecidableEq, Repr

/-- One iteration of the loop of `Stats`, sender.go lines 78-94. The
subtraction of the time stamps and the addition to the running sum wrap
around in 64 bits. The two counters do not: they stay below the length of the
slice, which is an `int`. -/
def statsStep (v : StatsVars) (res : Result) : StatsVars :=
  let v := { v with attempts := v.attempts + 1 }
  match res.Error with
  | some _ => v
  | none =>
    let v := { v with succeeded := v.succeeded + 1 }
    let rtt : Int := wrap64 (res.Received - res.Sent)
    let v := if rtt < v.minrtt ∨ v.minrtt = (0 : Int) then { v with minrtt := rtt } else v
    let v := if rtt > v.maxrtt then { v with maxrtt := rtt } else v
    { v with avgrtt := wrap64 (v.avgrtt + rtt) }

/-- The loop of `Stats` over the recorded results, from the initial values of
sender.go lines 71-75. -/
def statsLoop (results : List Result) : StatsVars :=
  results.foldl statsStep
    { attempts := 0, succeeded := 0, minrtt := 0, maxrtt := 0, avgrtt := 0 }

/-- The six values `Stats` formats into its summary line. -/
structure Summary where
  percent : Rat
  succeeded : Int
  attempts : Int
  minrtt : Int
  avgrtt : Int
  maxrtt : Int
  deriving DecidableEq, Repr

/-- `Stats`, sender.go lines 70-104, up to the formatting of the six values.
`none` is a division by zero. -/
def Stats (s : Sender) : Option Summary :=
  let v := statsLoop s.Results
  if v.succeeded > 0 then
    match goDiv v.avgrtt v.succeeded, PercentOf v.succeeded v.attempts with
    | some avg, some percent =>
      some { percent := percent, succeeded := v.succeeded, attempts := v.attempts,
             minrtt := v.minrtt, avgrtt := avg, maxrtt := v.maxrtt }
    | _, _ => none
  else
    some { percent := 0, succeeded := v.succeeded, attempts := v.attempts,
           minrtt := v.minrtt, avgrtt := v.avgrtt, maxrtt := v.maxrtt }

/-! ## CyclePayload -/

/-- The loop of `CyclePayload`, sender.go lines 311-318, with `k` iterations
left, at index `i` and position `pos`. `none` is an index outside the seed. -/
def cycleLoop (payload : List Byte) : Nat → Nat → Nat → List Byte → Option (List Byte)
  | 0, _, _, out => some out
  | k + 1, i, pos, out =>
    let pos := if (pos : Int) = (payload.length : Int) - 1 then 0 else pos + 1
    match payload[pos]? with
    | none => none
    | some b => cycleLoop payload k (i + 1) pos (out.set i b)

/-- `CyclePayload`, sender.go lines 307-321. `make` panics for a negative
length. -/
def CyclePayload (s : Sender) (amt : Int) : Option (List Byte) :=
  if amt < 0 then none
  else cycleLoop s.Config.Payload amt.toNat 0 0 (List.replicate amt.toNat 0)

/-! ## EnsureID and EnsureSocketOpen -/

/-- `EnsureID`, sender.go lines 323-338. `rand` is what `rand.Read` returns
when it is called: an error, or the two bytes it stored, read big-endian. -/
def EnsureID (s : Sender) (rand : Except Error (Byte × Byte)) : Sender × Option Error :=
  if s.ID ≠ 0 then (s, none)
  else
    match rand with
    | Except.error err => (s, some err)
    | Except.ok (b0, b1) => ({ s with ID := b0.val * 256 + b1.val }, none)

/-- `EnsureSocketOpen`, sender.go lines 340-374. `listen` is what
`net.ListenIP` returns when it is called. Setting the TTL or hop limit acts on
the socket only. -/
def EnsureSocketOpen (s : Sender) (listen : Except Error Nat) : Sender × Option Error :=
  match s.Conn with
  | some _ => (s, none)
  | none =>
    if s.Config.IPVersion ≠ 4 ∧ s.Config.IPVersion ≠ 6 then (s, some Error.BadIPVersion)
    else
      match listen with
      | Except.error err => (s, some err)
      | Except.ok conn =>
        if s.Config.IPVersion = 4 then
          ({ s with IPv4Conn := some conn, Conn := some conn }, none)
        else if s.Config.IPVersion = 6 then
          ({ s with IPv6Conn := some conn, Conn := some conn }, none)
        else (s, some Error.BadIPVersion)

/-! ## CraftPacket -/

def IPv4Len : Int := 20
def ICMPv4PingLen : Int := 8
def IPv6Len : Int := 40
def ICMPv6PingLen : Int := 8

/-- The layers `CraftPacket` hands to the serializer. -/
structure EchoRequest where
  IPVersion : Int
  Typ : Nat
  Code : Nat
  Id : Nat
  Seq : Nat
  Payload : List Byte
  deriving DecidableEq, Repr

/-- `CraftPacket`, sender.go lines 149-193, up to the serialization of the
layers. The subtraction of the header lengths wraps around in 64 bits, so for
a `Size` within 28 (or 48) of the least `int` the length is a large positive
number and is not replaced by 0. `none` is a panic in `CyclePayload`. -/
def CraftPacket (s : Sender) : Option (Except Error EchoRequest) :=
  if s.Config.IPVersion = 4 then
    let payloadLen := wrap64 (s.Config.Size - (IPv4Len + ICMPv4PingLen))
    let payloadLen := if payloadLen < 0 then 0 else payloadLen
    match CyclePayload s payloadLen with
    | none => none
    | some payload =>
      some (Except.ok { IPVersion := 4, Typ := 8, Code := 0, Id := s.ID, Seq := s.Seq,
                        Payload := payload })
  else if s.Config.IPVersion = 6 then
    let payloadLen := wrap64 (s.Config.Size - (IPv6Len + ICMPv6PingLen))
    let payloadLen := if payloadLen < 0 then 0 else payloadLen
    match CyclePayload s payloadLen with
    | none => none
    | some payload =>
      some (Except.ok { IPVersion := 6, Typ := 128, Code := 0, Id := s.ID, Seq := s.Seq,
                        Payload := payload })
  else some (Except.error Error.BadIPVersion)

/-! ## SendAndReceive -/

/-- What the calls of one `SendAndReceive` that leave the package return, each
used only if the call is reached. -/
structure Env where
  rand : Except Error (Byte × Byte)
  listen : Except Error Nat
  resolve : Option Error
  write : Option Error
  sentAt : Int
  setDeadline : Option Error
  reads : List ReadEvent
  receivedAt : Int

/-- `SendAndReceive`, sender.go lines 106-147: the engine after the call and
the returned error. The value of `EnsureID` is dropped, as on line 108. -/
def SendAndReceive (s : Sender) (env : Env) : Option (Sender × Option Error) :=
  let s := (EnsureID s env.rand).1
  match EnsureSocketOpen s env.listen with
  | (s, some err) => some (s, some err)
  | (s, none) =>
    match CraftPacket s with
    | none => none
    | some (Except.error err) => some (s, some err)
    | some (Except.ok _) =>
      match env.resolve with
      | some _ => some (s, some Error.BadIPAddress)
      | none =>
        match env.write with
        | some err => some (s, some err)
        | none =>
          match Receive s env.setDeadline env.reads with
          | none => none
          | some res =>
            let r : Result := { Error := res, Sent := env.sentAt, Received := env.receivedAt }
            some ({ s with Results := s.Results ++ [r], Seq := (s.Seq + 1) % 65536 }, res)

/-- Successive calls of `SendAndReceive`, one per element of `envs`. -/
def runAttempts (s : Sender) : List Env → Option Sender
  | [] => some s
  | env :: envs =>
    match SendAndReceive s env with
    | none => none
    | some (s, _) => runAttempts s envs

/-! ## The configuration parser (config/config.go) -/

/-- Regular expressions over the operators config.go uses: a literal
character, `?`, concatenation and `|`. -/
inductive Regex where
  | eps
  | chr (c : Char)
  | opt (r : Regex)
  | seq (r₁ r₂ : Regex)
  | alt (r₁ r₂ : Regex)
  deriving Repr

/-- The concatenation of a list of expressions. -/
def Regex.seqs : List Regex → Regex
  | [] => Regex.eps
  | r :: rs => Regex.seq r (Regex.seqs rs)

/-- The inputs left when `r` has matched a beginning of the input, one for
each way of matching. -/
def Regex.remainders : Regex → List Char → List (List Char)
  | Regex.eps, xs => [xs]
  | Regex.chr _, [] => []
  | Regex.chr c, x :: xs => if x = c then [xs] else []
  | Regex.opt r, xs => r.remainders xs ++ [xs]
  | Regex.seq r₁ r₂, xs => (r₁.remainders xs).flatMap r₂.remainders
  | Regex.alt r₁ r₂, xs => r₁.remainders xs ++ r₂.remainders xs

/-- The expression matches somewhere in the characters `cs`: it matches a
beginning of one of the suffixes. -/
def matchChars (re : Regex) (cs : List Char) : Bool :=
  cs.tails.any (fun t => !(re.remainders t).isEmpty)

/-- `re.MatchString(s)` of the `regexp` package: the expression matches
somewhere in `s`, it is not anchored. -/
def MatchString (re : Regex) (s : String) : Bool :=
  matchChars re s.toList

/-- The pattern `\?|--?he?l?p?|help`, config.go line 11. -/
def HelpRe : Regex :=
  Regex.alt (Regex.chr '?')
    (Regex.alt
      (Regex.seqs [Regex.chr '-', Regex.opt (Regex.chr '-'), Regex.chr 'h',
        Regex.opt (Regex.chr 'e'), Regex.opt (Regex.chr 'l'), Regex.opt (Regex.chr 'p')])
      (Regex.seqs [Regex.chr 'h', Regex.chr 'e', Regex.chr 'l', Regex.chr 'p']))

/-- The pattern `ipv4`, config.go line 12. -/
def IPv4Re : Regex :=
  Regex.seqs [Regex.chr 'i', Regex.chr 'p', Regex.chr 'v', Regex.chr '4']

/-- The pattern `ipv6`, config.go line 13. -/
def IPv6Re : Regex :=
  Regex.seqs [Regex.chr 'i', Regex.chr 'p', Regex.chr 'v', Regex.chr '6']

/-- The pattern `co?u?n?t?`, config.go line 14. -/
def CountRe : Regex :=
  Regex.seqs [Regex.chr 'c', Regex.opt (Regex.chr 'o'), Regex.opt (Regex.chr 'u'),
    Regex.opt (Regex.chr 'n'), Regex.opt (Regex.chr 't')]

/-- The pattern `si?z?e?`, config.go line 15. -/
def SizeRe : Regex :=
  Regex.seqs [Regex.chr 's', Regex.opt (Regex.chr 'i'), Regex.opt (Regex.chr 'z'),
    Regex.opt (Regex.chr 'e')]

/-- The pattern `pa?y?l?o?a?d?`, config.go line 16. -/
def PayloadRe : Regex :=
  Regex.seqs [Regex.chr 'p', Regex.opt (Regex.chr 'a'), Regex.opt (Regex.chr 'y'),
    Regex.opt (Regex.chr 'l'), Regex.opt (Regex.chr 'o'), Regex.opt (Regex.chr 'a'),
    Regex.opt (Regex.chr 'd')]

/-- The pattern `ttl?`, config.go line 17. -/
def TTLRe : Regex :=
  Regex.seqs [Regex.chr 't', Regex.chr 't', Regex.opt (Regex.chr 'l')]

/-- The pattern `tim?e?o?u?t?`, config.go line 18. -/
def TimeoutRe : Regex :=
  Regex.seqs [Regex.chr 't', Regex.chr 'i', Regex.opt (Regex.chr 'm'),
    Regex.opt (Regex.chr 'e'), Regex.opt (Regex.chr 'o'), Regex.opt (Regex.chr 'u'),
    Regex.opt (Regex.chr 't')]

/-- The errors `ParseArgs` can return: the one of `GetNext`, and the two of
`strconv.Atoi` (not a number, out of range). -/
inductive ParseError where
  | notEnoughArguments
  | numSyntax
  | numRange
  deriving DecidableEq, Repr

/-- The value of a run of decimal digits after `acc`; `none` for another
character. -/
def atoiDigits (acc : Nat) : List Char → Option Nat
  | [] => some acc
  | c :: cs => if c.isDigit then atoiDigits (acc * 10 + (c.toNat - 48)) cs else none

/-- `strconv.Atoi` of the standard library: an optional sign and at least one
decimal digit, within the 64-bit range; the returned number is 0 with a
syntax error and the nearest bound with a range error. -/
def Atoi (s : String) : Int × Option ParseError :=
  let cs := s.toList
  let signed : Bool × List Char :=
    match cs with
    | '-' :: r => (true, r)
    | '+' :: r => (false, r)
    | _ => (false, cs)
  if signed.2 = [] then (0, some ParseError.numSyntax)
  else
    match atoiDigits 0 signed.2 with
    | none => (0, some ParseError.numSyntax)
    | some n =>
      let v : Int := if signed.1 then -(n : Int) else (n : Int)
      if v > 9223372036854775807 then (9223372036854775807, some ParseError.numRange)
      else if v < -9223372036854775808 then (-9223372036854775808, some ParseError.numRange)
      else (v, none)

/-- `GetNext`, config.go lines 164-170. `none` is the panic of an index out of
range. -/
def GetNext (arr : List String) (index : Int) : Option (String × Option ParseError) :=
  if index + 1 > (arr.length : Int) then some ("", some ParseError.notEnoughArguments)
  else if index + 1 < 0 then none
  else
    match arr[(index + 1).toNat]? with
    | some x => some (x, none)
    | none => none

/-- The conversion `[]byte(s)`: the UTF-8 bytes of the string. -/
def bytesOf (s : String) : List Byte :=
  s.toUTF8.data.toList.map (fun b => (⟨b.toNat % 256, Nat.mod_lt _ (by decide)⟩ : Byte))

/-- The loop of `ParseArgs`, config.go lines 48-143, at position `pos` with
`fuel` iterations allowed: the configuration as the loop leaves it, with the
error if it returns one. `none` is a panic, or the fuel running out. -/
def parseLoop (args : List String) : Nat → Nat → Config → Option (Config × Option ParseError)
  | 0, pos, c => if pos < args.length then none else some (c, none)
  | fuel + 1, pos, c =>
    match args[pos]? with
    | none => some (c, none)
    | some cur =>
      if MatchString HelpRe cur then
        parseLoop args fuel (pos + 1) { c with HelpMode := true }
      else if MatchString CountRe cur then
        match GetNext args pos with
        | none => none
        | some (_, some err) => some (c, some err)
        | some (countStr, none) =>
          match Atoi countStr with
          | (n, some err) => some ({ c with Count := n }, some err)
          | (n, none) => parseLoop args fuel (pos + 1 + 1) { c with Count := n }
      else if MatchString SizeRe cur then
        match GetNext args pos with
        | none => none
        | some (_, some err) => some (c, some err)
        | some (sizeStr, none) =>
          match Atoi sizeStr with
          | (n, some err) => some ({ c with Size := n }, some err)
          | (n, none) => parseLoop args fuel (pos + 1 + 1) { c with Size := n }
      else if MatchString IPv4Re cur then
        parseLoop args fuel (pos + 1) { c with IPVersion := 4 }
      else if MatchString IPv6Re cur then
        parseLoop args fuel (pos + 1) { c with IPVersion := 6 }
      else if MatchString PayloadRe cur then
        match GetNext args pos with
        | none => none
        | some (_, some err) => some (c, some err)
        | some (payload, none) =>
          parseLoop args fuel (pos + 1 + 1) { c with Payload := bytesOf payload }
      else if MatchString TTLRe cur then
        match GetNext args pos with
        | none => none
        | some (_, some err) => some (c, some err)
        | some (ttl, none) =>
          match Atoi ttl with
          | (n, some err) => some ({ c with TTL := n }, some err)
          | (n, none) => parseLoop args fuel (pos + 1 + 1) { c with TTL := n }
      else if MatchString TimeoutRe cur then
        match GetNext args pos with
        | none => none
        | some (_, some err) => some (c, some err)
        | some (timeout, none) =>
          match Atoi timeout with
          | (n, some err) => some ({ c with TimeoutSecs := n }, some err)
          | (n, none) => parseLoop args fuel (pos + 1 + 1) { c with TimeoutSecs := n }
      else parseLoop args fuel (pos + 1) c

/-- `ParseArgs`, config.go lines 45-149: the configuration after the call and
the returned error. The loop runs at most once per argument. `none` is a
panic. -/
def ParseArgs (c : Config) (args : List String) : Option (Config × Option ParseError) :=
  match parseLoop args (args.length + 1) 0 c with
  | none => none
  | some (c, some err) => some (c, some err)
  | some (c, none) =>
    if args.length = 0 then none
    else
      match args[args.length - 1]? with
      | none => none
      | some last => some ({ c with DestIP := last }, none)

/-- A destination written with decimal digits and dots only. -/
def dottedDecimal (d : String) : Bool :=
  d.toList.all (fun c => c.isDigit || c == '.')

/-! ## Vocabulary of the statements -/

/-- The round-trip time of a result in milliseconds, `Received - Sent`, as an
exact integer. -/
def rtt (r : Result) : Int := r.Received - r.Sent

/-- The successful results of a list, in order. -/
def successes (rs : List Result) : List Result :=
  rs.filter (fun r => r.Error.isNone)

/-- A decoded read shows the identifier `id` to an IPv4 engine: it has an
ICMPv4 layer with that identifier. -/
def carriesID4 (id : Nat) (pkt : Inbound) : Bool :=
  match pkt.v4 with
  | some icmp => icmp.Id == id
  | none => false

/-- A decoded read shows the identifier `id` to an IPv6 engine: it has an
ICMPv6 layer with an echo body of that identifier. -/
def carriesID6 (id : Nat) (pkt : Inbound) : Bool :=
  match pkt.v6 with
  | some icmp => icmp.Echo == some id
  | none => false

/-- A decoded read an IPv6 engine with identifier `id` passes over: it has no
ICMPv6 layer, or it is an echo reply whose echo body has another identifier. -/
def passedOver6 (id : Nat) (pkt : Inbound) : Bool :=
  match pkt.v6 with
  | none => true
  | some icmp =>
    icmp.Typ == ICMPv6TypeEchoReply &&
      (match icmp.Echo with
       | some identifier => identifier != id
       | none => false)

/-- The call `SendAndReceive s env` completes: the socket is open, the packet
is built, the destination resolves, the write succeeds and `Receive` returns. -/
def Completes (s : Sender) (env : Env) : Bool :=
  let s1 := (EnsureID s env.rand).1
  let r := EnsureSocketOpen s1 env.listen
  r.2.isNone &&
    (match CraftPacket r.1 with
     | some (Except.ok _) => true
     | _ => false) &&
    env.resolve.isNone && env.write.isNone &&
    (Receive r.1 env.setDeadline env.reads).isSome

/-- Every call of `runAttempts s envs` completes. -/
def AllComplete (s : Sender) : List Env → Bool
  | [] => true
  | env :: envs =>
    Completes s env &&
      match SendAndReceive s env with
      | none => false
      | some (s, _) => AllComplete s envs

/-! ## Receive: classification of IPv4 replies -/

/-- C1: in the read loop of `Receive` under IP version 4, a decoded ICMPv4
packet whose identifier differs from the engine's is skipped (the loop goes on
with the next read); one with the engine's identifier ends the loop with
success for type 0, `CouldNotFragment` for type 3 code 4, `DestUnreachable`
for type 3 and another code, `SourceQuench` for type 4, `TTLExpired` for type
11 and `UnknownPacket` for every other type. -/
theorem receive_ipv4_classification (s : Sender) (pkt : Inbound) (icmp : ICMPv4)
    (rest : List ReadEvent) (hv : s.Config.IPVersion = 4) (hp : pkt.v4 = some icmp) :
    (icmp.Id ≠ s.ID →
      receiveLoop s (ReadEvent.data pkt :: rest) = receiveLoop s rest) ∧
    (icmp.Id = s.ID → icmp.Typ = 0 →
      receiveLoop s (ReadEvent.data pkt :: rest) = some none) ∧
    (icmp.Id = s.ID → icmp.Typ = 3 → icmp.Code = 4 →
      receiveLoop s (ReadEvent.data pkt :: rest) = some (some Error.CouldNotFragment)) ∧
    (icmp.Id = s.ID → icmp.Typ = 3 → icmp.Code ≠ 4 →
      receiveLoop s (ReadEvent.data pkt :: rest) = some (some Error.DestUnreachable)) ∧
    (icmp.Id = s.ID → icmp.Typ = 4 →
      receiveLoop s (ReadEvent.data pkt :: rest) = some (some Error.SourceQuench)) ∧
    (icmp.Id = s.ID → icmp.Typ = 11 →
      receiveLoop s (ReadEvent.data pkt :: rest) = some (some Error.TTLExpired)) ∧
    (icmp.Id = s.ID → icmp.Typ ≠ 0 → icmp.Typ ≠ 3 → icmp.Typ ≠ 4 → icmp.Typ ≠ 11 →
      receiveLoop s (ReadEvent.data pkt :: rest) = some (some Error.UnknownPacket)) := by
  refine ⟨?_, ?_, ?_, ?_, ?_, ?_, ?_⟩
  · intro hid
    simp [receiveLoop, receiveV4, hv, hp, hid]
  · intro hid ht
    simp [receiveLoop, receiveV4, hv, hp, hid, ht, ICMPv4TypeEchoReply]
  · intro hid ht hc
    simp [receiveLoop, receiveV4, hv, hp, hid, ht, hc, ICMPv4TypeEchoReply,
      ICMPv4TypeDestinationUnreachable, ICMPv4CodeFragmentationNeeded]
  · intro hid ht hc
    simp [receiveLoop, receiveV4, hv, hp, hid, ht, hc, ICMPv4TypeEchoReply,
      ICMPv4TypeDestinationUnreachable, ICMPv4CodeFragmentationNeeded]
  · intro hid ht
    simp [receiveLoop, receiveV4, hv, hp, hid, ht, ICMPv4TypeEchoReply,
      ICMPv4TypeDestinationUnreachable, ICMPv4TypeSourceQuench]
  · intro hid ht
    simp [receiveLoop, receiveV4, hv, hp, hid, ht, ICMPv4TypeEchoReply,
      ICMPv4TypeDestinationUnreachable, ICMPv4TypeSourceQuench, ICMPv4TypeTimeExceeded]
  · intro hid h0 h3 h4 h11
    simp [receiveLoop, receiveV4, hv, hp, hid, h0, h3, h4, h11, ICMPv4TypeEchoReply,
      ICMPv4TypeDestinationUnreachable, ICMPv4TypeSourceQuench, ICMPv4TypeTimeExceeded]

/-- C1, at an engine with identifier 7: a fragmentation-needed packet for the
identifier 7 ends the loop with `CouldNotFragment`, and one for the identifier
8 is skipped, so that the deadline that follows is what the loop returns. -/
theorem receive_ipv4_classification_witness :
    receiveLoop { NewSender Default with ID := 7 }
        [ReadEvent.data ⟨some ⟨7, 3, 4⟩, none⟩, ReadEvent.deadline]
      = some (some Error.CouldNotFragment) ∧
    receiveLoop { NewSender Default with ID := 7 }
        [ReadEvent.data ⟨some ⟨8, 3, 4⟩, none⟩, ReadEvent.deadline]
      = receiveLoop { NewSender Default with ID := 7 } [ReadEvent.deadline] :=
  ⟨(receive_ipv4_classification { NewSender Default with ID := 7 } ⟨some ⟨7, 3, 4⟩, none⟩
      ⟨7, 3, 4⟩ [ReadEvent.deadline] rfl rfl).2.2.1 rfl rfl rfl,
   (receive_ipv4_classification { NewSender Default with ID := 7 } ⟨some ⟨8, 3, 4⟩, none⟩
      ⟨8, 3, 4⟩ [ReadEvent.deadline] rfl rfl).1 (by decide)⟩

/-! ## CyclePayload -/

/-- The position update of the loop is the successor modulo the seed length. -/
theorem cycle_next_pos (L pos : Nat) (hpos : pos < L) :
    (if (pos : Int) = (L : Int) - 1 then 0 else pos + 1) = (pos + 1) % L := by
  by_cases h : (pos : Int) = (L : Int) - 1
  · have h1 : pos + 1 = L := by omega
    simp [h, h1]
  · have h1 : pos + 1 < L := by omega
    simp [h, Nat.mod_eq_of_lt h1]

/-- The loop of `CyclePayload` on a non-empty seed returns; it keeps the
length of `out`, leaves the indices outside `[i, i + k)` alone and writes the
seed bytes that follow `pos`, cyclically, at the indices inside. -/
theorem cycleLoop_spec (payload : List Byte) (hL : 0 < payload.length) :
    ∀ (k i pos : Nat) (out : List Byte), pos < payload.length → i + k ≤ out.length →
      ∃ res, cycleLoop payload k i pos out = some res ∧ res.length = out.length ∧
        ∀ j, ((j < i ∨ i + k ≤ j) → res[j]? = out[j]?) ∧
          (i ≤ j → j < i + k → res[j]? = payload[(pos + 1 + (j - i)) % payload.length]?) := by
  intro k
  induction k with
  | zero =>
    intro i pos out _ _
    refine ⟨out, rfl, rfl, fun j => ⟨fun _ => rfl, fun h1 h2 => by omega⟩⟩
  | succ k ih =>
    intro i pos out hpos hlen
    have hnext := cycle_next_pos payload.length pos hpos
    have hlt : (pos + 1) % payload.length < payload.length := Nat.mod_lt _ hL
    obtain ⟨res, hres, hreslen, hj⟩ := ih (i + 1) ((pos + 1) % payload.length)
      (out.set i (payload[(pos + 1) % payload.length])) hlt (by simp; omega)
    refine ⟨res, ?_, ?_, ?_⟩
    · simp only [cycleLoop, hnext, List.getElem?_eq_getElem hlt]
      exact hres
    · simpa using hreslen
    · intro j
      refine ⟨?_, ?_⟩
      · intro h
        have h1 := (hj j).1 (by omega)
        rw [h1, List.getElem?_set_ne (by omega)]
      · intro h1 h2
        by_cases hij : j = i
        · subst hij
          have h3 := (hj j).1 (Or.inl (by omega))
          have h4 : j < out.length := by omega
          rw [h3]
          simp [List.getElem?_set_self, h4, List.getElem?_eq_getElem hlt]
        · have h3 := (hj j).2 (by omega) (by omega)
          rw [h3]
          congr 1
          rw [Nat.add_assoc, Nat.mod_add_mod]
          congr 1
          omega

/-- On a non-empty seed `CyclePayload n` returns `n` bytes, the byte at index
`j` being the seed byte at `(j + 1) mod L`. -/
theorem cyclePayload_closed_form (s : Sender) (n : Nat)
    (hL : 0 < s.Config.Payload.length) :
    ∃ out, CyclePayload s (n : Int) = some out ∧ out.length = n ∧
      ∀ j, j < n → out[j]? = s.Config.Payload[(j + 1) % s.Config.Payload.length]? := by
  obtain ⟨res, hres, hlen, hj⟩ :=
    cycleLoop_spec s.Config.Payload hL n 0 0 (List.replicate n 0) hL (by simp)
  refine ⟨res, ?_, by simpa using hlen, ?_⟩
  · have h0 : ¬ ((n : Int) < 0) := by omega
    simp only [CyclePayload, h0, if_false, Int.toNat_ofNat]
    exact hres
  · intro j hjn
    have h := (hj j).2 (Nat.zero_le j) (by omega)
    rw [h]
    congr 2
    omega

/-- C9: for every non-empty seed and every `n`, `CyclePayload n` returns (no
index falls outside the seed) and its result has exactly `n` bytes. -/
theorem cyclePayload_length (s : Sender) (n : Nat) (h : s.Config.Payload ≠ []) :
    ∃ out, CyclePayload s (n : Int) = some out ∧ out.length = n := by
  obtain ⟨out, h1, h2, _⟩ := cyclePayload_closed_form s n (List.length_pos.mpr h)
  exact ⟨out, h1, h2⟩

/-- C9, at the default two-byte seed and `n = 5`. -/
theorem cyclePayload_length_witness :
    (NewSender Default).Config.Payload ≠ [] ∧
      ∃ out, CyclePayload (NewSender Default) ((5 : Nat) : Int) = some out ∧ out.length = 5 :=
  ⟨by decide, cyclePayload_length (NewSender Default) 5 (by decide)⟩

/-- C3, as stated, fails: with the default seed `AB CD` (so `L - 1 = 1`)
`CyclePayload 2` is `CD AB`, whose bytes at indices 0 and 1 differ; and the
seeds `AB CD` and `AB EE`, which differ in the last byte only, give different
outputs. -/
theorem cyclePayload_period_not_L_minus_one :
    ¬ (∀ (s : Sender) (n : Nat) (out : List Byte), 2 ≤ s.Config.Payload.length →
        CyclePayload s (n : Int) = some out →
        ∀ i, i + (s.Config.Payload.length - 1) < n →
          out[i + (s.Config.Payload.length - 1)]? = out[i]?) ∧
    CyclePayload (NewSender Default) 2 = some [0xCD, 0xAB] ∧
    CyclePayload (NewSender { Default with Payload := [0xAB, 0xEE] }) 2 = some [0xEE, 0xAB] := by
  refine ⟨?_, by decide, by decide⟩
  intro h
  have h1 := h (NewSender Default) 2 [0xCD, 0xAB] (by decide) (by decide) 0 (by decide)
  revert h1
  decide

/-- C3, amended: for every seed of length `L ≥ 2` and every `n`,
`CyclePayload n` returns an output that repeats with period `L`
(`out[i + L] = out[i]` whenever `i + L < n`), and the last seed byte is part
of the cycle: it is the output byte at index `L - 2` whenever `L - 2 < n`. -/
theorem cyclePayload_period (s : Sender) (n : Nat) (h : 2 ≤ s.Config.Payload.length) :
    ∃ out, CyclePayload s (n : Int) = some out ∧
      (∀ i, i + s.Config.Payload.length < n → out[i + s.Config.Payload.length]? = out[i]?) ∧
      (s.Config.Payload.length - 2 < n →
        out[s.Config.Payload.length - 2]? = s.Config.Payload[s.Config.Payload.length - 1]?) := by
  obtain ⟨out, h1, _, h3⟩ := cyclePayload_closed_form s n (by omega)
  refine ⟨out, h1, ?_, ?_⟩
  · intro i hi
    rw [h3 _ hi, h3 i (by omega)]
    congr 1
    rw [Nat.add_right_comm, Nat.add_mod_right]
  · intro hn
    rw [h3 _ hn]
    congr 1
    have h4 : s.Config.Payload.length - 2 + 1 = s.Config.Payload.length - 1 := by omega
    rw [h4]
    exact Nat.mod_eq_of_lt (by omega)

/-- C3 amended, at the seed `01 02 03` and `n = 7`. -/
theorem cyclePayload_period_witness :
    2 ≤ (NewSender { Default with Payload := [1, 2, 3] }).Config.Payload.length ∧
      ∃ out, CyclePayload (NewSender { Default with Payload := [1, 2, 3] }) ((7 : Nat) : Int)
          = some out ∧
        (∀ i, i + (NewSender { Default with Payload := [1, 2, 3] }).Config.Payload.length < 7 →
          out[i + (NewSender { Default with Payload := [1, 2, 3] }).Config.Payload.length]?
            = out[i]?) ∧
        ((NewSender { Default with Payload := [1, 2, 3] }).Config.Payload.length - 2 < 7 →
          out[(NewSender { Default with Payload := [1, 2, 3] }).Config.Payload.length - 2]?
            = (NewSender { Default with Payload := [1, 2, 3] }).Config.Payload[
                (NewSender { Default with Payload := [1, 2, 3] }).Config.Payload.length - 1]?) :=
  ⟨by decide, cyclePayload_period (NewSender { Default with Payload := [1, 2, 3] }) 7 (by decide)⟩

/-! ## Stats -/

/-- A value in the 64-bit range is not changed by wrapping. -/
theorem wrap64_id (x : Int) (h1 : -9223372036854775808 ≤ x) (h2 : x < 9223372036854775808) :
    wrap64 x = x := by
  unfold wrap64
  omega

/-- A failed result only counts as an attempt. -/
theorem statsStep_failed (v : StatsVars) (r : Result) (h : r.Error ≠ none) :
    statsStep v r = { v with attempts := v.attempts + 1 } := by
  cases hr : r.Error with
  | none => exact absurd hr h
  | some e => simp [statsStep, hr]

/-- What a successful result does to the counters, the sum, the maximum and
the minimum, in terms of the wrapped round-trip time. -/
theorem statsStep_success (v : StatsVars) (r : Result) (h : r.Error = none) :
    (statsStep v r).attempts = v.attempts + 1 ∧
    (statsStep v r).succeeded = v.succeeded + 1 ∧
    (statsStep v r).avgrtt = wrap64 (v.avgrtt + wrap64 (rtt r)) ∧
    (statsStep v r).maxrtt = max v.maxrtt (wrap64 (rtt r)) ∧
    (statsStep v r).minrtt =
      (if wrap64 (rtt r) < v.minrtt ∨ v.minrtt = 0 then wrap64 (rtt r) else v.minrtt) := by
  simp only [statsStep, h, rtt]
  split_ifs <;> dsimp only at * <;> omega

/-- The counters of the loop of `Stats` from arbitrary starting values: the
attempts grow by the length of the list, the successes by the number of
successful results; without a successful result the minimum, the maximum and
the sum stay as they are. -/
theorem statsLoop_counts (rs : List Result) :
    ∀ v : StatsVars,
      (rs.foldl statsStep v).attempts = v.attempts + rs.length ∧
      (rs.foldl statsStep v).succeeded = v.succeeded + (successes rs).length ∧
      (successes rs = [] →
        (rs.foldl statsStep v).minrtt = v.minrtt ∧ (rs.foldl statsStep v).maxrtt = v.maxrtt ∧
        (rs.foldl statsStep v).avgrtt = v.avgrtt) := by
  induction rs with
  | nil => intro v; simp [successes]
  | cons r rs ih =>
    intro v
    obtain ⟨ha, hs, hnone⟩ := ih (statsStep v r)
    simp only [List.foldl_cons]
    cases hr : r.Error with
    | some e =>
      have hstep := statsStep_failed v r (by simp [hr])
      have hsucc : successes (r :: rs) = successes rs := by simp [successes, hr]
      rw [hsucc]
      rw [hstep] at ha hs hnone ⊢
      simp only at ha hs hnone
      refine ⟨by rw [ha]; simp; omega, hs, hnone⟩
    | none =>
      obtain ⟨h1, h2, _, _, _⟩ := statsStep_success v r hr
      have hsucc : successes (r :: rs) = r :: successes rs := by simp [successes, hr]
      rw [hsucc]
      refine ⟨?_, ?_, ?_⟩
      · rw [ha, h1]; simp; omega
      · rw [hs, h2]; simp; omega
      · intro hnil; simp at hnil

/-- The sum and the maximum of the loop of `Stats` from arbitrary starting
values, when no successful round-trip time is negative and the starting sum
plus these times stays below `2^63`: nothing wraps, the sum grows by the
times and the maximum is the largest of the starting maximum and the times. -/
theorem statsLoop_fold (rs : List Result) :
    ∀ v : StatsVars, 0 ≤ v.avgrtt → (∀ r ∈ successes rs, 0 ≤ rtt r) →
      v.avgrtt + ((successes rs).map rtt).sum < 9223372036854775808 →
      (rs.foldl statsStep v).avgrtt = v.avgrtt + ((successes rs).map rtt).sum ∧
      v.maxrtt ≤ (rs.foldl statsStep v).maxrtt ∧
      (∀ r ∈ successes rs, rtt r ≤ (rs.foldl statsStep v).maxrtt) ∧
      ((rs.foldl statsStep v).maxrtt = v.maxrtt ∨
        ∃ r ∈ successes rs, rtt r = (rs.foldl statsStep v).maxrtt) := by
  induction rs with
  | nil => intro v _ _ _; simp [successes]
  | cons r rs ih =>
    intro v hv hnn hbound
    simp only [List.foldl_cons]
    cases hr : r.Error with
    | some e =>
      have hstep := statsStep_failed v r (by simp [hr])
      have hsucc : successes (r :: rs) = successes rs := by simp [successes, hr]
      rw [hsucc] at hnn hbound ⊢
      rw [hstep]
      exact ih { v with attempts := v.attempts + 1 } hv hnn hbound
    | none =>
      obtain ⟨_, _, h3, h4, _⟩ := statsStep_success v r hr
      have hsucc : successes (r :: rs) = r :: successes rs := by simp [successes, hr]
      rw [hsucc] at hnn hbound ⊢
      have hr0 : 0 ≤ rtt r := hnn r (List.mem_cons_self _ _)
      have htail : ∀ x ∈ successes rs, 0 ≤ rtt x :=
        fun x hx => hnn x (List.mem_cons_of_mem _ hx)
      have htailsum : 0 ≤ ((successes rs).map rtt).sum := by
        apply List.sum_nonneg
        intro y hy
        obtain ⟨x, hx, rfl⟩ := List.mem_map.mp hy
        exact htail x hx
      simp only [List.map_cons, List.sum_cons] at hbound ⊢
      have hw : wrap64 (rtt r) = rtt r := wrap64_id _ (by omega) (by omega)
      rw [hw] at h3 h4
      have hw2 : wrap64 (v.avgrtt + rtt r) = v.avgrtt + rtt r :=
        wrap64_id _ (by omega) (by omega)
      rw [hw2] at h3
      obtain ⟨hsum, hle, hall, hex⟩ := ih (statsStep v r) (by rw [h3]; omega) htail
        (by rw [h3]; omega)
      refine ⟨?_, ?_, ?_, ?_⟩
      · rw [hsum, h3]; omega
      · rw [h4] at hle; exact le_trans (le_max_left _ _) hle
      · intro x hx
        rcases List.mem_cons.mp hx with hx | hx
        · subst hx
          rw [h4] at hle; exact le_trans (le_max_right _ _) hle
        · exact hall x hx
      · rcases hex with hex | ⟨x, hx, hxe⟩
        · rw [hex, h4]
          rcases max_cases v.maxrtt (rtt r) with ⟨hm, _⟩ | ⟨hm, _⟩
          · left; exact hm
          · right; exact ⟨r, List.mem_cons_self _ _, hm.symm⟩
        · right; exact ⟨x, List.mem_cons_of_mem _ hx, hxe⟩

/-- The values of the loop of `Stats` other than the attempts do not depend on
the failed results. -/
theorem statsLoop_successes (rs : List Result) :
    ∀ v w : StatsVars, v.succeeded = w.succeeded → v.minrtt = w.minrtt →
      v.maxrtt = w.maxrtt → v.avgrtt = w.avgrtt →
      (rs.foldl statsStep v).succeeded = ((successes rs).foldl statsStep w).succeeded ∧
      (rs.foldl statsStep v).minrtt = ((successes rs).foldl statsStep w).minrtt ∧
      (rs.foldl statsStep v).maxrtt = ((successes rs).foldl statsStep w).maxrtt ∧
      (rs.foldl statsStep v).avgrtt = ((successes rs).foldl statsStep w).avgrtt := by
  induction rs with
  | nil => intro v w h1 h2 h3 h4; exact ⟨h1, h2, h3, h4⟩
  | cons r rs ih =>
    intro v w h1 h2 h3 h4
    cases hr : r.Error with
    | some e =>
      have hsucc : successes (r :: rs) = successes rs := by simp [successes, hr]
      rw [hsucc, List.foldl_cons, statsStep_failed v r (by simp [hr])]
      exact ih _ w h1 h2 h3 h4
    | none =>
      have hsucc : successes (r :: rs) = r :: successes rs := by simp [successes, hr]
      rw [hsucc, List.foldl_cons, List.foldl_cons]
      obtain ⟨_, a2, a3, a4, a5⟩ := statsStep_success v r hr
      obtain ⟨_, b2, b3, b4, b5⟩ := statsStep_success w r hr
      apply ih
      · rw [a2, b2, h1]
      · rw [a5, b5, h2]
      · rw [a4, b4, h3]
      · rw [a3, b3, h4]

/-- C2, on the code: with two successful results of round-trip times 0 ms and
5 ms, `Stats` reports the minimum 5, not 0: the second sample overwrites the
minimum because the first left it at 0, the value the loop reads as "unset". -/
theorem stats_min_zero_rtt_overwritten :
    (Stats { NewSender Default with
              Results := [⟨none, 100, 100⟩, ⟨none, 200, 205⟩] }).map Summary.minrtt = some 5 ∧
    (successes [⟨none, 100, 100⟩, ⟨none, 200, 205⟩]).map rtt = [0, 5] := by
  decide

/-- The counters of the loop of `Stats` from its starting values. -/
theorem statsLoop_facts (rs : List Result) :
    (statsLoop rs).attempts = rs.length ∧
    (statsLoop rs).succeeded = (successes rs).length ∧
    (successes rs = [] →
      (statsLoop rs).minrtt = 0 ∧ (statsLoop rs).maxrtt = 0 ∧ (statsLoop rs).avgrtt = 0) := by
  have h := statsLoop_counts rs
    { attempts := 0, succeeded := 0, minrtt := 0, maxrtt := 0, avgrtt := 0 }
  simp only [zero_add] at h
  exact h

/-- The sum and the maximum of the loop of `Stats` from its starting values,
when no successful round-trip time is negative and their sum is below
`2^63`. -/
theorem statsLoop_sums (rs : List Result) (hnn : ∀ r ∈ successes rs, 0 ≤ rtt r)
    (hbound : ((successes rs).map rtt).sum < 9223372036854775808) :
    (statsLoop rs).avgrtt = ((successes rs).map rtt).sum ∧
    0 ≤ (statsLoop rs).maxrtt ∧
    (∀ r ∈ successes rs, rtt r ≤ (statsLoop rs).maxrtt) ∧
    ((statsLoop rs).maxrtt = 0 ∨ ∃ r ∈ successes rs, rtt r = (statsLoop rs).maxrtt) := by
  have h := statsLoop_fold rs
    { attempts := 0, succeeded := 0, minrtt := 0, maxrtt := 0, avgrtt := 0 }
    (le_refl 0) hnn (by simpa using hbound)
  simp only [zero_add] at h
  exact h

/-- C8: `Stats` never divides by zero (it returns for every result list), and
for a list with no successful result, the empty list included, it reports
percent 0, succeeded 0, attempted = the length of the list and min/avg/max =
0/0/0. -/
theorem stats_no_success (s : Sender) :
    (Stats s).isSome = true ∧
    ((∀ r ∈ s.Results, r.Error ≠ none) →
      Stats s = some { percent := 0, succeeded := 0, attempts := s.Results.length,
                       minrtt := 0, avgrtt := 0, maxrtt := 0 }) := by
  obtain ⟨ha, hs, hnone⟩ := statsLoop_facts s.Results
  have hle : (successes s.Results).length ≤ s.Results.length := List.length_filter_le _ _
  refine ⟨?_, ?_⟩
  · unfold Stats
    by_cases hpos : (statsLoop s.Results).succeeded > 0
    · have h1 : (statsLoop s.Results).succeeded ≠ 0 := by omega
      have h2 : (statsLoop s.Results).attempts ≠ 0 := by omega
      simp [hpos, goDiv, PercentOf, h1, h2]
    · simp [hpos]
  · intro hfail
    have hnil : successes s.Results = [] := by
      apply List.filter_eq_nil_iff.mpr
      intro r hr
      cases hre : r.Error with
      | none => exact absurd hre (hfail r hr)
      | some e => simp
    obtain ⟨hmin, hmax, hsum⟩ := hnone hnil
    rw [hnil] at hs
    simp only [List.length_nil, Nat.cast_zero] at hs
    unfold Stats
    simp [hs, hsum, hmin, hmax, ha]

/-- C8, at the empty result list and at a list of two failed results. -/
theorem stats_no_success_witness :
    Stats (NewSender Default) =
      some { percent := 0, succeeded := 0, attempts := 0, minrtt := 0, avgrtt := 0, maxrtt := 0 } ∧
    Stats { NewSender Default with
              Results := [⟨some Error.TimeoutExceeded, 0, 2000⟩, ⟨some Error.TTLExpired, 5, 9⟩] } =
      some { percent := 0, succeeded := 0, attempts := 2, minrtt := 0, avgrtt := 0, maxrtt := 0 } :=
  ⟨(stats_no_success (NewSender Default)).2 (by decide),
   (stats_no_success { NewSender Default with
      Results := [⟨some Error.TimeoutExceeded, 0, 2000⟩, ⟨some Error.TTLExpired, 5, 9⟩] }).2
      (by decide)⟩

/-- C7, as stated, fails: two successful results of round-trip time `2^62` ms
each satisfy its conditions, but the sum `2^63` of the two times wraps around
to `-2^63` in the 64-bit `int` of `Stats`, which reports the average `-2^62`
where the sum integer-divided by 2 is `2^62`. -/
theorem stats_avg_wraps :
    ¬ (∀ s : Sender, (∃ r ∈ s.Results, r.Error = none) →
        (∀ r ∈ s.Results, r.Error = none → r.Sent ≤ r.Received) →
        ∃ sm, Stats s = some sm ∧
          sm.avgrtt = ((successes s.Results).map rtt).sum / ((successes s.Results).length : Int)) ∧
    (Stats { NewSender Default with
              Results := [⟨none, 0, 4611686018427387904⟩, ⟨none, 0, 4611686018427387904⟩] }).map
        Summary.avgrtt = some (-4611686018427387904) ∧
    ((successes [⟨none, 0, 4611686018427387904⟩, ⟨none, 0, 4611686018427387904⟩]).map rtt).sum / 2
      = 4611686018427387904 := by
  have hd : (Stats { NewSender Default with
      Results := [⟨none, 0, 4611686018427387904⟩, ⟨none, 0, 4611686018427387904⟩] }).map
        Summary.avgrtt = some (-4611686018427387904) := by decide
  refine ⟨?_, hd, by decide⟩
  intro h
  obtain ⟨sm, h1, h2⟩ := h { NewSender Default with
      Results := [⟨none, 0, 4611686018427387904⟩, ⟨none, 0, 4611686018427387904⟩] }
    (by decide) (by decide)
  rw [h1] at hd
  simp only [Option.map_some', Option.some.injEq] at hd
  rw [hd] at h2
  revert h2
  decide

/-- C7, amended: for a result list with at least one successful result,
`Received ≥ Sent` on every successful result, and a sum of the successful
round-trip times below `2^63`, `Stats` returns, with attempted = the length of
the list, succeeded = the number of successful results, max = the largest
successful round-trip time, and avg = the sum of the successful round-trip
times integer-divided by succeeded; and dropping the failed results from the
list changes none of succeeded, min, avg and max. -/
theorem stats_reference_fold (s : Sender)
    (h1 : ∃ r ∈ s.Results, r.Error = none)
    (h2 : ∀ r ∈ s.Results, r.Error = none → r.Sent ≤ r.Received)
    (h3 : ((successes s.Results).map rtt).sum < 9223372036854775808) :
    ∃ sm, Stats s = some sm ∧
      sm.attempts = s.Results.length ∧
      sm.succeeded = (successes s.Results).length ∧
      (∀ r ∈ successes s.Results, rtt r ≤ sm.maxrtt) ∧
      (∃ r ∈ successes s.Results, rtt r = sm.maxrtt) ∧
      sm.avgrtt = ((successes s.Results).map rtt).sum / ((successes s.Results).length : Int) ∧
      ∃ sm', Stats { s with Results := successes s.Results } = some sm' ∧
        sm'.succeeded = sm.succeeded ∧ sm'.minrtt = sm.minrtt ∧
        sm'.avgrtt = sm.avgrtt ∧ sm'.maxrtt = sm.maxrtt := by
  obtain ⟨ha, hs, _⟩ := statsLoop_facts s.Results
  obtain ⟨r0, hr0, hr0e⟩ := h1
  have hr0s : r0 ∈ successes s.Results := by
    simp [successes, hr0, hr0e]
  have hlen : 0 < (successes s.Results).length := List.length_pos_of_mem hr0s
  have hle : (successes s.Results).length ≤ s.Results.length := List.length_filter_le _ _
  have hpos : (statsLoop s.Results).succeeded > 0 := by omega
  have hne1 : (statsLoop s.Results).succeeded ≠ 0 := by omega
  have hne2 : (statsLoop s.Results).attempts ≠ 0 := by omega
  have hnonneg : ∀ r ∈ successes s.Results, 0 ≤ rtt r := by
    intro r hr
    have hm := List.mem_filter.mp hr
    have he : r.Error = none := by
      cases hre : r.Error with
      | none => rfl
      | some e => simp [hre] at hm
    have := h2 r hm.1 he
    simp only [rtt]; omega
  obtain ⟨hsum, hmax0, hall, hex⟩ := statsLoop_sums s.Results hnonneg h3
  have hsumnn : 0 ≤ ((successes s.Results).map rtt).sum := by
    apply List.sum_nonneg
    intro x hx
    obtain ⟨r, hr, rfl⟩ := List.mem_map.mp hx
    exact hnonneg r hr
  obtain ⟨c1, c2, c3, c4⟩ := statsLoop_successes s.Results
    { attempts := 0, succeeded := 0, minrtt := 0, maxrtt := 0, avgrtt := 0 }
    { attempts := 0, succeeded := 0, minrtt := 0, maxrtt := 0, avgrtt := 0 } rfl rfl rfl rfl
  have hpos' : (statsLoop (successes s.Results)).succeeded > 0 := by
    have : (statsLoop (successes s.Results)).succeeded = (statsLoop s.Results).succeeded := c1.symm
    omega
  have hne1' : (statsLoop (successes s.Results)).succeeded ≠ 0 := by omega
  have hne2' : (statsLoop (successes s.Results)).attempts ≠ 0 := by
    have := (statsLoop_facts (successes s.Results)).1
    omega
  refine ⟨{ percent := ((statsLoop s.Results).succeeded : Rat) * 100
                        / ((statsLoop s.Results).attempts : Rat),
            succeeded := (statsLoop s.Results).succeeded,
            attempts := (statsLoop s.Results).attempts,
            minrtt := (statsLoop s.Results).minrtt,
            avgrtt := Int.tdiv (statsLoop s.Results).avgrtt (statsLoop s.Results).succeeded,
            maxrtt := (statsLoop s.Results).maxrtt }, ?_, ha, hs, hall, ?_, ?_, ?_⟩
  · simp [Stats, hpos, goDiv, PercentOf, hne1, hne2]
  · rcases hex with h0 | h
    · refine ⟨r0, hr0s, ?_⟩
      have := hall r0 hr0s
      have := hnonneg r0 hr0s
      simp only; omega
    · exact h
  · simp only
    rw [hsum, hs]
    exact Int.tdiv_eq_ediv hsumnn (by omega)
  · refine ⟨{ percent := ((statsLoop (successes s.Results)).succeeded : Rat) * 100
                        / ((statsLoop (successes s.Results)).attempts : Rat),
              succeeded := (statsLoop (successes s.Results)).succeeded,
              attempts := (statsLoop (successes s.Results)).attempts,
              minrtt := (statsLoop (successes s.Results)).minrtt,
              avgrtt := Int.tdiv (statsLoop (successes s.Results)).avgrtt
                          (statsLoop (successes s.Results)).succeeded,
              maxrtt := (statsLoop (successes s.Results)).maxrtt }, ?_, ?_, ?_, ?_, ?_⟩
    · simp [Stats, hpos', goDiv, PercentOf, hne1', hne2']
    · exact c1.symm
    · exact c2.symm
    · show Int.tdiv _ _ = Int.tdiv _ _
      have e1 : (statsLoop (successes s.Results)).avgrtt = (statsLoop s.Results).avgrtt := c4.symm
      have e2 : (statsLoop (successes s.Results)).succeeded = (statsLoop s.Results).succeeded :=
        c1.symm
      rw [e1, e2]
    · exact c3.symm

/-- C7 amended, at the results of round-trip times 10 ms and 30 ms followed by
one timeout: attempted 3, succeeded 2, max 30, avg 20. -/
theorem stats_reference_fold_witness :
    ∃ sm, Stats { NewSender Default with
                    Results := [⟨none, 0, 10⟩, ⟨none, 50, 80⟩,
                                ⟨some Error.TimeoutExceeded, 100, 2100⟩] } = some sm ∧
      sm.attempts = 3 ∧ sm.succeeded = 2 ∧ sm.maxrtt = 30 ∧ sm.avgrtt = 20 := by
  obtain ⟨sm, hst, ha, hs, hall, hex, havg, _⟩ :=
    stats_reference_fold
      { NewSender Default with
          Results := [⟨none, 0, 10⟩, ⟨none, 50, 80⟩, ⟨some Error.TimeoutExceeded, 100, 2100⟩] }
      (by decide) (by decide) (by decide)
  have hsucc : successes ({ NewSender Default with
      Results := [⟨none, 0, 10⟩, ⟨none, 50, 80⟩,
                  ⟨some Error.TimeoutExceeded, 100, 2100⟩] } : Sender).Results
      = [⟨none, 0, 10⟩, ⟨none, 50, 80⟩] := by decide
  rw [hsucc] at hs hall hex havg
  refine ⟨sm, hst, by simpa using ha, by simpa using hs, ?_, ?_⟩
  · have h30 := hall ⟨none, 50, 80⟩ (by simp)
    obtain ⟨r, hr, hre⟩ := hex
    simp only [List.mem_cons, List.mem_singleton, List.not_mem_nil, or_false] at hr
    rcases hr with rfl | rfl
    · simp only [rtt] at hre h30; omega
    · simp only [rtt] at hre; omega
  · rw [havg]; simp [rtt]

/-! ## Receive without a matching reply -/

/-- An IPv4 engine skips a read that does not show its identifier. -/
theorem receiveV4_skips (id : Nat) (pkt : Inbound) (h : carriesID4 id pkt = false) :
    receiveV4 id pkt.v4 = none := by
  unfold carriesID4 at h
  cases hp : pkt.v4 with
  | none => rfl
  | some icmp =>
    rw [hp] at h
    have hne : icmp.Id ≠ id := by simpa using h
    simp [receiveV4, hne]

/-- An IPv6 engine skips exactly the reads it passes over. -/
theorem receiveV6_skips (id : Nat) (pkt : Inbound) (h : passedOver6 id pkt = true) :
    receiveV6 id pkt.v6 = none := by
  unfold passedOver6 at h
  cases hp : pkt.v6 with
  | none => rfl
  | some icmp =>
    rw [hp] at h
    cases he : icmp.Echo with
    | none => simp [he] at h
    | some identifier =>
      simp only [he, Bool.and_eq_true, beq_iff_eq, bne_iff_ne] at h
      simp [receiveV6, h.1, he, h.2]

/-- An IPv6 engine does not report success on a read that does not show its
identifier. -/
theorem receiveV6_no_success (id : Nat) (pkt : Inbound) (h : carriesID6 id pkt = false) :
    receiveV6 id pkt.v6 ≠ some none := by
  unfold carriesID6 at h
  cases hp : pkt.v6 with
  | none => simp [receiveV6]
  | some icmp =>
    rw [hp] at h
    have hne : icmp.Echo ≠ some id := by simpa using h
    cases he : icmp.Echo with
    | none =>
      unfold receiveV6
      simp only [he]
      split_ifs <;> simp
    | some identifier =>
      have hid : identifier ≠ id := by
        intro hc; apply hne; rw [he, hc]
      unfold receiveV6
      simp only [he, hid, if_false]
      split_ifs <;> simp

/-- An IPv6 engine returns on a read it does not pass over. -/
theorem receiveV6_classifies (id : Nat) (pkt : Inbound) (h : passedOver6 id pkt = false) :
    ∃ r, receiveV6 id pkt.v6 = some r := by
  unfold passedOver6 at h
  cases hp : pkt.v6 with
  | none => simp [hp] at h
  | some icmp =>
    simp only [hp] at h
    by_cases ht : icmp.Typ = ICMPv6TypeEchoReply
    · cases he : icmp.Echo with
      | none => exact ⟨some Error.UnknownPacket, by simp [receiveV6, ht, he]⟩
      | some identifier =>
        have hid : identifier = id := by
          simpa [ht, he] using h
        exact ⟨none, by simp [receiveV6, ht, he, hid]⟩
    · simp only [receiveV6, ht, if_false]
      split_ifs <;> exact ⟨_, rfl⟩

/-- With a connection, a buffer of at least one byte and the deadline set,
`Receive` is its read loop. -/
theorem receive_eq_loop (s : Sender) (reads : List ReadEvent) (hsize : 0 < s.Config.Size)
    (hconn : s.Conn ≠ none) : Receive s none reads = receiveLoop s reads := by
  have h1 : ¬ s.Config.Size < 0 := by omega
  have h2 : ¬ s.Config.Size = 0 := by omega
  cases hc : s.Conn with
  | none => exact absurd hc hconn
  | some c => simp only [Receive, h1, h2, hc, if_false]

/-- The read loop of an IPv6 engine skips the reads it passes over. -/
theorem receiveLoop_skips_v6 (s : Sender) (hv : s.Config.IPVersion = 6) (pre : List Inbound)
    (rest : List ReadEvent) (hall : ∀ p ∈ pre, passedOver6 s.ID p = true) :
    receiveLoop s (pre.map ReadEvent.data ++ rest) = receiveLoop s rest := by
  have h46 : ¬ ((6 : Int) = 4) := by decide
  induction pre with
  | nil => rfl
  | cons p ps ih =>
    have hp := receiveV6_skips s.ID p (hall p (List.mem_cons_self _ _))
    simp only [List.map_cons, List.cons_append, receiveLoop, hv, h46, if_true, if_false, hp]
    exact ih (fun q hq => hall q (List.mem_cons_of_mem _ hq))

/-- C10, as stated, fails. Under IP version 6, one destination-unreachable
packet (type 1, no echo body, so no identifier at all) followed by the
deadline makes `Receive` return `DestUnreachable`, not `TimeoutExceeded`.
Under either version with `Size = 0` the reads deliver nothing, the deadline
included, and `Receive` does not return. -/
theorem receive_ipv6_unmatched_not_timeout :
    ¬ (∀ (s : Sender) (pkts : List Inbound),
        (s.Config.IPVersion = 4 ∨ s.Config.IPVersion = 6) → 0 < s.Config.Size →
        s.Conn ≠ none →
        (∀ p ∈ pkts, carriesID4 s.ID p = false ∧ carriesID6 s.ID p = false) →
        Receive s none (pkts.map ReadEvent.data ++ [ReadEvent.deadline])
          = some (some Error.TimeoutExceeded)) ∧
    Receive { NewSender { Default with IPVersion := 6 } with ID := 7, Conn := some 3 } none
        [ReadEvent.data ⟨none, some ⟨1, 0, none⟩⟩, ReadEvent.deadline]
      = some (some Error.DestUnreachable) ∧
    Receive { NewSender { Default with Size := 0 } with ID := 7, Conn := some 3 } none
        [ReadEvent.deadline] = none := by
  refine ⟨?_, by decide, by decide⟩
  intro h
  have h1 := h { NewSender { Default with IPVersion := 6 } with ID := 7, Conn := some 3 }
    [⟨none, some ⟨1, 0, none⟩⟩] (by decide) (by decide) (by decide) (by decide)
  revert h1
  decide

/-- C10, amended: let the reads be a finite sequence of packets followed by
the expiry of the deadline, on an engine with a connection and a `Size` of at
least 1 whose deadline was set. Under IP version 4, if no packet shows the
engine's identifier, `Receive` returns `TimeoutExceeded`. Under IP version 6,
if no packet shows the engine's identifier, `Receive` returns an error, never
success; it returns `TimeoutExceeded` if every packet is passed over (no
ICMPv6 layer, or an echo reply whose echo body has another identifier), and
otherwise the classified outcome of the first packet that is not passed
over. -/
theorem receive_unmatched (s : Sender) (pkts : List Inbound) (hsize : 0 < s.Config.Size)
    (hconn : s.Conn ≠ none) :
    (s.Config.IPVersion = 4 → (∀ p ∈ pkts, carriesID4 s.ID p = false) →
      Receive s none (pkts.map ReadEvent.data ++ [ReadEvent.deadline])
        = some (some Error.TimeoutExceeded)) ∧
    (s.Config.IPVersion = 6 → (∀ p ∈ pkts, carriesID6 s.ID p = false) →
      ∃ e, Receive s none (pkts.map ReadEvent.data ++ [ReadEvent.deadline]) = some (some e)) ∧
    (s.Config.IPVersion = 6 → (∀ p ∈ pkts, passedOver6 s.ID p = true) →
      Receive s none (pkts.map ReadEvent.data ++ [ReadEvent.deadline])
        = some (some Error.TimeoutExceeded)) ∧
    (s.Config.IPVersion = 6 → (∀ p ∈ pkts, carriesID6 s.ID p = false) →
      ∀ pre p post, pkts = pre ++ p :: post → (∀ q ∈ pre, passedOver6 s.ID q = true) →
        passedOver6 s.ID p = false →
        ∃ e, receiveV6 s.ID p.v6 = some (some e) ∧
          Receive s none (pkts.map ReadEvent.data ++ [ReadEvent.deadline]) = some (some e)) := by
  have h46 : ¬ ((6 : Int) = 4) := by decide
  rw [receive_eq_loop s _ hsize hconn]
  refine ⟨?_, ?_, ?_, ?_⟩
  · intro hv hall
    induction pkts with
    | nil => rfl
    | cons p ps ih =>
      have hp := receiveV4_skips s.ID p (hall p (List.mem_cons_self _ _))
      simp only [List.map_cons, List.cons_append, receiveLoop, hv, if_true, hp]
      exact ih (fun q hq => hall q (List.mem_cons_of_mem _ hq))
  · intro hv hall
    induction pkts with
    | nil => exact ⟨Error.TimeoutExceeded, rfl⟩
    | cons p ps ih =>
      have hp := receiveV6_no_success s.ID p (hall p (List.mem_cons_self _ _))
      simp only [List.map_cons, List.cons_append, receiveLoop, hv, h46, if_true, if_false]
      cases hr : receiveV6 s.ID p.v6 with
      | none => exact ih (fun q hq => hall q (List.mem_cons_of_mem _ hq))
      | some r =>
        cases r with
        | none => exact absurd hr hp
        | some e => exact ⟨e, rfl⟩
  · intro hv hall
    have h := receiveLoop_skips_v6 s hv pkts [ReadEvent.deadline] hall
    rw [h]
    rfl
  · intro hv hall pre p post hpk hpre hp
    subst hpk
    obtain ⟨r, hr⟩ := receiveV6_classifies s.ID p hp
    have hns := receiveV6_no_success s.ID p (hall p (by simp))
    cases r with
    | none => exact absurd hr hns
    | some e =>
      refine ⟨e, hr, ?_⟩
      rw [List.map_append, List.append_assoc,
        receiveLoop_skips_v6 s hv pre _ hpre]
      simp only [List.map_cons, List.cons_append, receiveLoop, hv, h46, if_true, if_false, hr]

/-- C10 amended, at an IPv4 engine with identifier 7 and two foreign echo
replies before the deadline. -/
theorem receive_unmatched_witness :
    Receive { NewSender Default with ID := 7, Conn := some 3 } none
        ([⟨some ⟨8, 0, 0⟩, none⟩, ⟨some ⟨9, 0, 0⟩, none⟩].map ReadEvent.data
          ++ [ReadEvent.deadline])
      = some (some Error.TimeoutExceeded) :=
  (receive_unmatched { NewSender Default with ID := 7, Conn := some 3 }
    [⟨some ⟨8, 0, 0⟩, none⟩, ⟨some ⟨9, 0, 0⟩, none⟩] (by decide) (by decide)).1 rfl (by decide)

/-! ## EnsureID -/

/-- `EnsureID` changes no field but `ID`. -/
theorem ensureID_fields (s : Sender) (rand : Except Error (Byte × Byte)) :
    (EnsureID s rand).1.Seq = s.Seq ∧ (EnsureID s rand).1.Results = s.Results ∧
    (EnsureID s rand).1.Config = s.Config ∧ (EnsureID s rand).1.Conn = s.Conn := by
  unfold EnsureID
  by_cases h : s.ID ≠ 0
  · simp [h]
  · rw [if_neg h]
    cases rand with
    | error e => simp
    | ok bs => simp

/-- Once the identifier is not 0, `EnsureID` keeps the engine as it is and
returns no error, whatever the random source would return. -/
theorem ensureID_keeps_nonzero (s : Sender) (rand : Except Error (Byte × Byte))
    (h : s.ID ≠ 0) : EnsureID s rand = (s, none) := by
  simp [EnsureID, h]

/-- C4, on the code: on a new engine, a first draw of the bytes `00 00` leaves
the identifier 0, and a second call draws again; with the bytes `00 01` the
identifier after the second call is 1, not the 0 left by the first. -/
theorem ensureID_redraws_after_zero :
    (EnsureID (NewSender Default) (Except.ok (0, 0))).1.ID = 0 ∧
    (EnsureID (EnsureID (NewSender Default) (Except.ok (0, 0))).1 (Except.ok (0, 1))).1.ID = 1 ∧
    (EnsureID (NewSender Default) (Except.ok (0, 0))).2 = none ∧
    (EnsureID (EnsureID (NewSender Default) (Except.ok (0, 0))).1 (Except.ok (0, 1))).2 = none := by
  decide

/-! ## SendAndReceive -/

/-- `EnsureSocketOpen` changes no field but the connections. -/
theorem ensureSocketOpen_fields (s : Sender) (listen : Except Error Nat) :
    (EnsureSocketOpen s listen).1.Seq = s.Seq ∧
    (EnsureSocketOpen s listen).1.Results = s.Results ∧
    (EnsureSocketOpen s listen).1.Config = s.Config ∧
    (EnsureSocketOpen s listen).1.ID = s.ID := by
  unfold EnsureSocketOpen
  cases hc : s.Conn with
  | some c => simp
  | none =>
    cases listen with
    | error e => simp only; split_ifs <;> simp
    | ok conn => simp only; split_ifs <;> simp

/-- C5, on the code: on a new engine whose random source fails with an error,
`EnsureID` returns that error, but `SendAndReceive` goes on: it opens the
socket, sends the packet with identifier 0, waits for the reply, and here
returns `TimeoutExceeded` with one result recorded and `Seq` advanced to 1. -/
theorem sendAndReceive_drops_ensureID_error :
    (EnsureID (NewSender Default) (Except.error (Error.transport 1))).2
      = some (Error.transport 1) ∧
    SendAndReceive (NewSender Default)
        { rand := Except.error (Error.transport 1), listen := Except.ok 3, resolve := none,
          write := none, sentAt := 100, setDeadline := none,
          reads := [ReadEvent.deadline], receivedAt := 2100 }
      = some ({ NewSender Default with
                  Seq := 1, Conn := some 3, IPv4Conn := some 3,
                  Results := [⟨some Error.TimeoutExceeded, 100, 2100⟩] },
              some Error.TimeoutExceeded) := by
  decide

/-- A call of `SendAndReceive` that completes returns, having advanced `Seq`
by one modulo 65536 and appended one result. -/
theorem sendAndReceive_completes (s : Sender) (env : Env) (h : Completes s env = true) :
    ∃ s' res, SendAndReceive s env = some (s', res) ∧ s'.Seq = (s.Seq + 1) % 65536 ∧
      s'.Results = s.Results ++ [⟨res, env.sentAt, env.receivedAt⟩] := by
  have hf1 := ensureID_fields s env.rand
  have hf2 := ensureSocketOpen_fields (EnsureID s env.rand).1 env.listen
  unfold Completes at h
  simp only [Bool.and_eq_true] at h
  obtain ⟨⟨⟨⟨h1, h2⟩, h3⟩, h4⟩, h5⟩ := h
  cases hE : EnsureSocketOpen (EnsureID s env.rand).1 env.listen with
  | mk s2 e2 =>
    rw [hE] at h1 h2 h5 hf2
    dsimp only at h1 h2 h5 hf2
    cases e2 with
    | some e => simp at h1
    | none =>
      cases hc : CraftPacket s2 with
      | none => simp [hc] at h2
      | some c =>
        cases c with
        | error e => simp [hc] at h2
        | ok pkt =>
          cases hr : env.resolve with
          | some e => simp [hr] at h3
          | none =>
            cases hw : env.write with
            | some e => simp [hw] at h4
            | none =>
              cases hrec : Receive s2 env.setDeadline env.reads with
              | none => simp [hrec] at h5
              | some res =>
                refine ⟨{ s2 with
                    Results := s2.Results ++ [⟨res, env.sentAt, env.receivedAt⟩],
                    Seq := (s2.Seq + 1) % 65536 }, res, ?_, ?_, ?_⟩
                · simp only [SendAndReceive, hE, hc, hr, hw, hrec]
                · simp only; rw [hf2.1, hf1.1]
                · simp only; rw [hf2.2.1, hf1.2.1]

/-- C6: a new engine starts with `Seq = 0`, and after `k` calls of
`SendAndReceive` that each complete, from an engine whose `Seq` is a 16-bit
value, `Seq` is the initial `Seq` plus `k`, modulo 65536. -/
theorem seq_after_completed_attempts (s : Sender) (envs : List Env)
    (hseq : s.Seq < 65536) (h : AllComplete s envs = true) :
    (NewSender s.Config).Seq = 0 ∧
    ∃ s', runAttempts s envs = some s' ∧ s'.Seq = (s.Seq + envs.length) % 65536 := by
  refine ⟨rfl, ?_⟩
  induction envs generalizing s with
  | nil => exact ⟨s, rfl, by simp; omega⟩
  | cons env envs ih =>
    simp only [AllComplete, Bool.and_eq_true] at h
    obtain ⟨hc, hrest⟩ := h
    obtain ⟨s1, res, hsr, hs1, _⟩ := sendAndReceive_completes s env hc
    rw [hsr] at hrest
    simp only at hrest
    obtain ⟨s2, hrun, hs2⟩ := ih s1 (by omega) hrest
    refine ⟨s2, ?_, ?_⟩
    · simp only [runAttempts, hsr]
      exact hrun
    · rw [hs2, hs1]
      simp only [List.length_cons]
      omega

/-- C6, at three completed calls on a new engine with the default
configuration (a timeout, an echo reply, a read error), and at one completed
call on an engine whose `Seq` is 65535. -/
theorem seq_after_completed_attempts_witness :
    (∃ s', runAttempts (NewSender Default)
        [⟨Except.ok (1, 2), Except.ok 3, none, none, 0, none, [ReadEvent.deadline], 2000⟩,
         ⟨Except.ok (0, 0), Except.ok 4, none, none, 3000, none,
          [ReadEvent.data ⟨some ⟨258, 0, 0⟩, none⟩], 3010⟩,
         ⟨Except.ok (0, 0), Except.ok 5, none, none, 4000, none,
          [ReadEvent.failed (Error.transport 9)], 4001⟩] = some s' ∧ s'.Seq = 3) ∧
    (∃ s', runAttempts { NewSender Default with Seq := 65535 }
        [⟨Except.ok (1, 2), Except.ok 3, none, none, 0, none, [ReadEvent.deadline], 2000⟩]
          = some s' ∧ s'.Seq = 0) :=
  ⟨(seq_after_completed_attempts (NewSender Default)
      [⟨Except.ok (1, 2), Except.ok 3, none, none, 0, none, [ReadEvent.deadline], 2000⟩,
       ⟨Except.ok (0, 0), Except.ok 4, none, none, 3000, none,
        [ReadEvent.data ⟨some ⟨258, 0, 0⟩, none⟩], 3010⟩,
       ⟨Except.ok (0, 0), Except.ok 5, none, none, 4000, none,
        [ReadEvent.failed (Error.transport 9)], 4001⟩] (by decide) (by decide)).2,
   (seq_after_completed_attempts { NewSender Default with Seq := 65535 }
      [⟨Except.ok (1, 2), Except.ok 3, none, none, 0, none, [ReadEvent.deadline], 2000⟩]
      (by decide) (by decide)).2⟩

/-! ## Receive: classification of IPv6 replies -/

/-- C11: in the read loop of `Receive` under IP version 6, a decoded ICMPv6
packet of type 129 ends the loop with success when its echo body has the
engine's identifier and with `UnknownPacket` when it has no echo body; type 1
ends it with `DestUnreachable`, type 2 with `CouldNotFragment`, type 3 with
`TTLExpired` and every other type but 129 with `UnknownPacket`, whatever the
echo body; success is returned for type 129 with the engine's identifier
only; a read without ICMPv6 layer is skipped. -/
theorem receive_ipv6_classification (s : Sender) (pkt : Inbound) (rest : List ReadEvent)
    (hv : s.Config.IPVersion = 6) :
    (pkt.v6 = none →
      receiveLoop s (ReadEvent.data pkt :: rest) = receiveLoop s rest) ∧
    (∀ icmp, pkt.v6 = some icmp →
      (icmp.Typ = 129 → icmp.Echo = some s.ID →
        receiveLoop s (ReadEvent.data pkt :: rest) = some none) ∧
      (icmp.Typ = 129 → icmp.Echo = none →
        receiveLoop s (ReadEvent.data pkt :: rest) = some (some Error.UnknownPacket)) ∧
      (icmp.Typ = 1 →
        receiveLoop s (ReadEvent.data pkt :: rest) = some (some Error.DestUnreachable)) ∧
      (icmp.Typ = 2 →
        receiveLoop s (ReadEvent.data pkt :: rest) = some (some Error.CouldNotFragment)) ∧
      (icmp.Typ = 3 →
        receiveLoop s (ReadEvent.data pkt :: rest) = some (some Error.TTLExpired)) ∧
      (icmp.Typ ≠ 129 → icmp.Typ ≠ 1 → icmp.Typ ≠ 2 → icmp.Typ ≠ 3 →
        receiveLoop s (ReadEvent.data pkt :: rest) = some (some Error.UnknownPacket)) ∧
      (receiveV6 s.ID pkt.v6 = some none → icmp.Typ = 129 ∧ icmp.Echo = some s.ID)) := by
  have h46 : ¬ ((6 : Int) = 4) := by decide
  refine ⟨?_, ?_⟩
  · intro hp
    simp [receiveLoop, receiveV6, hv, hp]
  · intro icmp hp
    refine ⟨?_, ?_, ?_, ?_, ?_, ?_, ?_⟩
    · intro ht he
      simp [receiveLoop, receiveV6, hv, hp, ht, he, ICMPv6TypeEchoReply]
    · intro ht he
      simp [receiveLoop, receiveV6, hv, hp, ht, he, ICMPv6TypeEchoReply]
    · intro ht
      simp [receiveLoop, receiveV6, hv, hp, ht, ICMPv6TypeEchoReply,
        ICMPv6TypeDestinationUnreachable]
    · intro ht
      simp [receiveLoop, receiveV6, hv, hp, ht, ICMPv6TypeEchoReply,
        ICMPv6TypeDestinationUnreachable, ICMPv6TypePacketTooBig]
    · intro ht
      simp [receiveLoop, receiveV6, hv, hp, ht, ICMPv6TypeEchoReply,
        ICMPv6TypeDestinationUnreachable, ICMPv6TypePacketTooBig, ICMPv6TypeTimeExceeded]
    · intro h129 h1 h2 h3
      simp [receiveLoop, receiveV6, hv, hp, h129, h1, h2, h3, ICMPv6TypeEchoReply,
        ICMPv6TypeDestinationUnreachable, ICMPv6TypePacketTooBig, ICMPv6TypeTimeExceeded]
    · intro hsucc
      rw [hp] at hsucc
      unfold receiveV6 at hsucc
      simp only [ICMPv6TypeEchoReply] at hsucc
      by_cases ht : icmp.Typ = 129
      · refine ⟨ht, ?_⟩
        cases he : icmp.Echo with
        | none => simp [ht, he] at hsucc
        | some identifier =>
          by_cases hid : identifier = s.ID
          · rw [hid]
          · simp [ht, he, hid] at hsucc
      · simp only [ht, if_false] at hsucc
        split_ifs at hsucc <;> simp at hsucc

/-- C11, at an engine with identifier 7: a packet-too-big packet whose echo
body has the identifier 9 ends the loop with `CouldNotFragment`. -/
theorem receive_ipv6_classification_witness :
    receiveLoop { NewSender { Default with IPVersion := 6 } with ID := 7 }
        [ReadEvent.data ⟨none, some ⟨2, 0, some 9⟩⟩, ReadEvent.deadline]
      = some (some Error.CouldNotFragment) :=
  ((receive_ipv6_classification { NewSender { Default with IPVersion := 6 } with ID := 7 }
      ⟨none, some ⟨2, 0, some 9⟩⟩ [ReadEvent.deadline] rfl).2 ⟨2, 0, some 9⟩ rfl).2.2.2.1 rfl

/-- C20: under IP version 6, an echo reply (type 129) whose echo body has
another identifier than the engine's produces no outcome: `Receive` on it and
the reads that follow is `Receive` on the reads that follow, so it ends with
the next packet that classifies, the next read error or the deadline. -/
theorem receive_ipv6_foreign_echo_reply (s : Sender) (pkt : Inbound) (icmp : ICMPv6)
    (identifier : Nat) (setDeadline : Option Error) (rest : List ReadEvent)
    (hv : s.Config.IPVersion = 6) (hp : pkt.v6 = some icmp) (ht : icmp.Typ = 129)
    (he : icmp.Echo = some identifier) (hid : identifier ≠ s.ID) :
    receiveV6 s.ID pkt.v6 = none ∧
    receiveLoop s (ReadEvent.data pkt :: rest) = receiveLoop s rest ∧
    Receive s setDeadline (ReadEvent.data pkt :: rest) = Receive s setDeadline rest := by
  have h46 : ¬ ((6 : Int) = 4) := by decide
  have h1 : receiveV6 s.ID pkt.v6 = none := by
    simp [receiveV6, hp, ht, he, hid, ICMPv6TypeEchoReply]
  have h2 : receiveLoop s (ReadEvent.data pkt :: rest) = receiveLoop s rest := by
    simp [receiveLoop, hv, h1]
  refine ⟨h1, h2, ?_⟩
  unfold Receive
  rw [h2]

/-- C20, at an engine with a connection and the identifier 7, and an echo
reply for the identifier 9: followed by the deadline it gives `TimeoutExceeded`, followed by the
engine's own echo reply it gives success. -/
theorem receive_ipv6_foreign_echo_reply_witness :
    Receive { NewSender { Default with IPVersion := 6 } with ID := 7, Conn := some 3 } none
        [ReadEvent.data ⟨none, some ⟨129, 0, some 9⟩⟩, ReadEvent.deadline]
      = some (some Error.TimeoutExceeded) ∧
    Receive { NewSender { Default with IPVersion := 6 } with ID := 7, Conn := some 3 } none
        [ReadEvent.data ⟨none, some ⟨129, 0, some 9⟩⟩,
         ReadEvent.data ⟨none, some ⟨129, 0, some 7⟩⟩]
      = some none :=
  ⟨(receive_ipv6_foreign_echo_reply { NewSender { Default with IPVersion := 6 } with ID := 7, Conn := some 3 }
      ⟨none, some ⟨129, 0, some 9⟩⟩ ⟨129, 0, some 9⟩ 9 none [ReadEvent.deadline]
      rfl rfl rfl rfl (by decide)).2.2.trans (by decide),
   (receive_ipv6_foreign_echo_reply { NewSender { Default with IPVersion := 6 } with ID := 7, Conn := some 3 }
      ⟨none, some ⟨129, 0, some 9⟩⟩ ⟨129, 0, some 9⟩ 9 none
      [ReadEvent.data ⟨none, some ⟨129, 0, some 7⟩⟩]
      rfl rfl rfl rfl (by decide)).2.2.trans (by decide)⟩

/-! ## CyclePayload: the closed form -/

/-- C19: for every non-empty seed of length `L`, every `n` and every `i < n`,
`CyclePayload n` returns `n` bytes whose byte at index `i` is the seed byte at
index `(i + 1) mod L`; for `L = 1` this is the only seed byte. -/
theorem cyclePayload_tiling (s : Sender) (n i : Nat) (hne : s.Config.Payload ≠ [])
    (hi : i < n) :
    ∃ out b, CyclePayload s (n : Int) = some out ∧ out.length = n ∧ out[i]? = some b ∧
      s.Config.Payload[(i + 1) % s.Config.Payload.length]? = some b ∧
      (s.Config.Payload.length = 1 → s.Config.Payload[0]? = some b) := by
  have hL : 0 < s.Config.Payload.length := List.length_pos.mpr hne
  obtain ⟨out, h1, h2, h3⟩ := cyclePayload_closed_form s n hL
  have hlt : (i + 1) % s.Config.Payload.length < s.Config.Payload.length := Nat.mod_lt _ hL
  refine ⟨out, s.Config.Payload[(i + 1) % s.Config.Payload.length], h1, h2, ?_, ?_, ?_⟩
  · rw [h3 i hi]
    exact List.getElem?_eq_getElem hlt
  · exact List.getElem?_eq_getElem hlt
  · intro h1L
    have h0 : (i + 1) % s.Config.Payload.length = 0 := by rw [h1L]; exact Nat.mod_one _
    have hget := List.getElem?_eq_getElem hlt
    rw [← hget, h0]

/-- C19, at the default seed `AB CD`: `CyclePayload 4` is `CD AB CD AB`, and
its byte at index 2 is the seed byte at index `(2 + 1) mod 2 = 1`. -/
theorem cyclePayload_tiling_witness :
    CyclePayload (NewSender Default) 4 = some [0xCD, 0xAB, 0xCD, 0xAB] ∧
    ∃ out b, CyclePayload (NewSender Default) ((4 : Nat) : Int) = some out ∧ out.length = 4 ∧
      out[2]? = some b ∧
      (NewSender Default).Config.Payload[(2 + 1) % (NewSender Default).Config.Payload.length]?
        = some b ∧
      ((NewSender Default).Config.Payload.length = 1 →
        (NewSender Default).Config.Payload[0]? = some b) :=
  ⟨by decide, cyclePayload_tiling (NewSender Default) 4 2 (by decide) (by decide)⟩

/-! ## CraftPacket -/

/-- Under IP version 4 `CraftPacket` is the echo request around
`CyclePayload` of the wrapped `Size - 28`, or of 0 when that is negative. -/
theorem craftPacket_v4 (s : Sender) (hv : s.Config.IPVersion = 4) :
    CraftPacket s = (CyclePayload s (max 0 (wrap64 (s.Config.Size - 28)))).map
      (fun p => Except.ok ⟨4, 8, 0, s.ID, s.Seq, p⟩) := by
  have e4 : (if wrap64 (s.Config.Size - (IPv4Len + ICMPv4PingLen)) < 0 then 0
      else wrap64 (s.Config.Size - (IPv4Len + ICMPv4PingLen)))
      = max 0 (wrap64 (s.Config.Size - 28)) := by
    simp only [IPv4Len, ICMPv4PingLen]
    norm_num
    split_ifs <;> omega
  simp only [CraftPacket, hv, if_true, e4]
  cases CyclePayload s (max 0 (wrap64 (s.Config.Size - 28))) <;> rfl

/-- Under IP version 6 `CraftPacket` is the echo request around
`CyclePayload` of the wrapped `Size - 48`, or of 0 when that is negative. -/
theorem craftPacket_v6 (s : Sender) (hv : s.Config.IPVersion = 6) :
    CraftPacket s = (CyclePayload s (max 0 (wrap64 (s.Config.Size - 48)))).map
      (fun p => Except.ok ⟨6, 128, 0, s.ID, s.Seq, p⟩) := by
  have h46 : ¬ ((6 : Int) = 4) := by decide
  have e6 : (if wrap64 (s.Config.Size - (IPv6Len + ICMPv6PingLen)) < 0 then 0
      else wrap64 (s.Config.Size - (IPv6Len + ICMPv6PingLen)))
      = max 0 (wrap64 (s.Config.Size - 48)) := by
    simp only [IPv6Len, ICMPv6PingLen]
    norm_num
    split_ifs <;> omega
  simp only [CraftPacket, hv, h46, if_true, if_false, e6]
  cases CyclePayload s (max 0 (wrap64 (s.Config.Size - 48))) <;> rfl

/-- On a non-empty seed `CraftPacket` under IP version 4 or 6 returns a
packet. -/
theorem craftPacket_returns (s : Sender) (hne : s.Config.Payload ≠ [])
    (hv : s.Config.IPVersion = 4 ∨ s.Config.IPVersion = 6) :
    ∃ pkt, CraftPacket s = some (Except.ok pkt) := by
  have hL : 0 < s.Config.Payload.length := List.length_pos.mpr hne
  rcases hv with hv | hv
  · obtain ⟨m, hm⟩ := Int.eq_ofNat_of_zero_le (le_max_left 0 (wrap64 (s.Config.Size - 28)))
    obtain ⟨out, h1, _, _⟩ := cyclePayload_closed_form s m hL
    refine ⟨⟨4, 8, 0, s.ID, s.Seq, out⟩, ?_⟩
    rw [craftPacket_v4 s hv, hm, h1]; rfl
  · obtain ⟨m, hm⟩ := Int.eq_ofNat_of_zero_le (le_max_left 0 (wrap64 (s.Config.Size - 48)))
    obtain ⟨out, h1, _, _⟩ := cyclePayload_closed_form s m hL
    refine ⟨⟨6, 128, 0, s.ID, s.Seq, out⟩, ?_⟩
    rw [craftPacket_v6 s hv, hm, h1]; rfl

/-- Under an IP version other than 4 and 6 `CraftPacket` returns
`BadIPVersion`. -/
theorem craftPacket_other_version (s : Sender) (h4 : s.Config.IPVersion ≠ 4)
    (h6 : s.Config.IPVersion ≠ 6) :
    CraftPacket s = some (Except.error Error.BadIPVersion) := by
  simp [CraftPacket, h4, h6]

/-- C14, as stated, fails: with `Size` the least 64-bit integer `-2^63`,
`Size - 28` wraps around to `2^63 - 28`, which is not negative, so it is not
replaced by 0: `CraftPacket` asks `CyclePayload` for `2^63 - 28` bytes, not
for `max 0 (Size - 28) = 0` bytes, and does not return the echo request with
the empty payload. -/
theorem craftPacket_payload_wraps :
    ¬ (∀ s : Sender, s.Config.IPVersion = 4 →
        CraftPacket s = (CyclePayload s (max 0 (s.Config.Size - 28))).map
          (fun p => Except.ok ⟨4, 8, 0, s.ID, s.Seq, p⟩)) ∧
    CraftPacket (NewSender { Default with Size := -9223372036854775808 }) =
      (CyclePayload (NewSender { Default with Size := -9223372036854775808 })
          9223372036854775780).map (fun p => Except.ok ⟨4, 8, 0, 0, 0, p⟩) ∧
    CraftPacket (NewSender { Default with Size := -9223372036854775808 }) ≠
      some (Except.ok ⟨4, 8, 0, 0, 0, []⟩) := by
  have hw : max 0 (wrap64 ((NewSender { Default with Size := -9223372036854775808 }).Config.Size
      - 28)) = ((9223372036854775780 : Nat) : Int) := by decide
  have hc := craftPacket_v4 (NewSender { Default with Size := -9223372036854775808 }) rfl
  rw [hw] at hc
  obtain ⟨out, h1, h2, _⟩ := cyclePayload_closed_form
    (NewSender { Default with Size := -9223372036854775808 }) 9223372036854775780 (by decide)
  have hne : CraftPacket (NewSender { Default with Size := -9223372036854775808 }) ≠
      some (Except.ok ⟨4, 8, 0, 0, 0, []⟩) := by
    rw [hc, h1]
    intro h
    simp only [Option.map_some', Option.some.injEq, Except.ok.injEq, EchoRequest.mk.injEq] at h
    have h3 : out = [] := h.2.2.2.2.2
    rw [h3] at h2
    simp at h2
  refine ⟨?_, hc, hne⟩
  intro h
  have h0 := h (NewSender { Default with Size := -9223372036854775808 }) rfl
  have h00 : CyclePayload (NewSender { Default with Size := -9223372036854775808 })
      (max 0 ((NewSender { Default with Size := -9223372036854775808 }).Config.Size - 28))
      = some [] := by decide
  rw [h00] at h0
  exact hne h0

/-- C14, amended: for every `Size` that is an `int` and from which the header
overhead can be subtracted without leaving the 64-bit range (`Size ≥ -2^63 +
28` under IP version 4, `Size ≥ -2^63 + 48` under IP version 6), `CraftPacket`
is the echo request (type 8 resp. 128, code 0, the engine's identifier and
sequence number) whose payload is `CyclePayload (max 0 (Size - 28))` resp.
`CyclePayload (max 0 (Size - 48))`; on a non-empty seed it returns, and the
payload has exactly that many bytes. -/
theorem craftPacket_payload (s : Sender) (hmax : s.Config.Size ≤ 9223372036854775807) :
    (s.Config.IPVersion = 4 → -9223372036854775808 + 28 ≤ s.Config.Size →
      CraftPacket s = (CyclePayload s (max 0 (s.Config.Size - 28))).map
        (fun p => Except.ok ⟨4, 8, 0, s.ID, s.Seq, p⟩)) ∧
    (s.Config.IPVersion = 6 → -9223372036854775808 + 48 ≤ s.Config.Size →
      CraftPacket s = (CyclePayload s (max 0 (s.Config.Size - 48))).map
        (fun p => Except.ok ⟨6, 128, 0, s.ID, s.Seq, p⟩)) ∧
    (s.Config.Payload ≠ [] →
      (s.Config.IPVersion = 4 → -9223372036854775808 + 28 ≤ s.Config.Size →
        ∃ pkt, CraftPacket s = some (Except.ok pkt) ∧
          (pkt.Payload.length : Int) = max 0 (s.Config.Size - 28)) ∧
      (s.Config.IPVersion = 6 → -9223372036854775808 + 48 ≤ s.Config.Size →
        ∃ pkt, CraftPacket s = some (Except.ok pkt) ∧
          (pkt.Payload.length : Int) = max 0 (s.Config.Size - 48))) := by
  have r4 : s.Config.IPVersion = 4 → -9223372036854775808 + 28 ≤ s.Config.Size →
      CraftPacket s = (CyclePayload s (max 0 (s.Config.Size - 28))).map
        (fun p => Except.ok ⟨4, 8, 0, s.ID, s.Seq, p⟩) := by
    intro hv hlo
    rw [craftPacket_v4 s hv, wrap64_id _ (by omega) (by omega)]
  have r6 : s.Config.IPVersion = 6 → -9223372036854775808 + 48 ≤ s.Config.Size →
      CraftPacket s = (CyclePayload s (max 0 (s.Config.Size - 48))).map
        (fun p => Except.ok ⟨6, 128, 0, s.ID, s.Seq, p⟩) := by
    intro hv hlo
    rw [craftPacket_v6 s hv, wrap64_id _ (by omega) (by omega)]
  refine ⟨r4, r6, ?_⟩
  intro hne
  have hL : 0 < s.Config.Payload.length := List.length_pos.mpr hne
  refine ⟨?_, ?_⟩
  · intro hv hlo
    obtain ⟨m, hm⟩ := Int.eq_ofNat_of_zero_le (le_max_left 0 (s.Config.Size - 28))
    obtain ⟨out, h1, h2, _⟩ := cyclePayload_closed_form s m hL
    refine ⟨⟨4, 8, 0, s.ID, s.Seq, out⟩, ?_, ?_⟩
    · rw [r4 hv hlo, hm, h1]; rfl
    · simp only [h2, hm]
  · intro hv hlo
    obtain ⟨m, hm⟩ := Int.eq_ofNat_of_zero_le (le_max_left 0 (s.Config.Size - 48))
    obtain ⟨out, h1, h2, _⟩ := cyclePayload_closed_form s m hL
    refine ⟨⟨6, 128, 0, s.ID, s.Seq, out⟩, ?_, ?_⟩
    · rw [r6 hv hlo, hm, h1]; rfl
    · simp only [h2, hm]

/-- C14 amended, at the default configuration (IP version 4, `Size = 100`,
seed `AB CD`): the payload has `100 - 28 = 72` bytes, 36 copies of `CD AB`. -/
theorem craftPacket_payload_witness :
    (∃ pkt, CraftPacket (NewSender Default) = some (Except.ok pkt) ∧
      (pkt.Payload.length : Int) = max 0 ((NewSender Default).Config.Size - 28)) ∧
    CraftPacket (NewSender Default) =
      some (Except.ok ⟨4, 8, 0, 0, 0, (List.replicate 36 [0xCD, 0xAB]).flatten⟩) :=
  ⟨((craftPacket_payload (NewSender Default) (by decide)).2.2 (by decide)).1 rfl (by decide),
   rfl⟩

/-- C15: `CraftPacket` returns `BadIPVersion`, and no packet, exactly when the
configured IP version is neither 4 nor 6; and on an engine without connection
whose IP version is neither 4 nor 6, `EnsureSocketOpen` returns `BadIPVersion`
and the engine unchanged, whatever opening a socket would return. -/
theorem bad_ip_version (s : Sender) :
    (CraftPacket s = some (Except.error Error.BadIPVersion) ↔
      (s.Config.IPVersion ≠ 4 ∧ s.Config.IPVersion ≠ 6)) ∧
    (s.Conn = none → s.Config.IPVersion ≠ 4 → s.Config.IPVersion ≠ 6 →
      ∀ listen, EnsureSocketOpen s listen = (s, some Error.BadIPVersion)) := by
  refine ⟨⟨?_, ?_⟩, ?_⟩
  · intro h
    by_cases h4 : s.Config.IPVersion = 4
    · rw [craftPacket_v4 s h4] at h
      cases hc : CyclePayload s (max 0 (wrap64 (s.Config.Size - 28))) <;> simp [hc] at h
    · by_cases h6 : s.Config.IPVersion = 6
      · rw [craftPacket_v6 s h6] at h
        cases hc : CyclePayload s (max 0 (wrap64 (s.Config.Size - 48))) <;> simp [hc] at h
      · exact ⟨h4, h6⟩
  · rintro ⟨h4, h6⟩
    exact craftPacket_other_version s h4 h6
  · intro hc h4 h6 listen
    simp [EnsureSocketOpen, hc, h4, h6]

/-- C15, at a new engine with IP version 5. -/
theorem bad_ip_version_witness :
    CraftPacket (NewSender { Default with IPVersion := 5 })
      = some (Except.error Error.BadIPVersion) ∧
    EnsureSocketOpen (NewSender { Default with IPVersion := 5 }) (Except.ok 3)
      = (NewSender { Default with IPVersion := 5 }, some Error.BadIPVersion) :=
  ⟨(bad_ip_version (NewSender { Default with IPVersion := 5 })).1.mpr ⟨by decide, by decide⟩,
   (bad_ip_version (NewSender { Default with IPVersion := 5 })).2 rfl (by decide) (by decide)
     (Except.ok 3)⟩

/-! ## SendAndReceive: results and setup failures -/

/-- C12: a call of `SendAndReceive` that completes (the packet was written
and `Receive` returned, with whatever value) returns that value, appends
exactly one result carrying it to `Results`, leaves the earlier results as
they were and in their order, and advances `Seq` by one modulo 65536. -/
theorem one_result_per_attempt (s : Sender) (env : Env) (h : Completes s env = true) :
    ∃ s' res, SendAndReceive s env = some (s', res) ∧
      s'.Results = s.Results ++ [⟨res, env.sentAt, env.receivedAt⟩] ∧
      s'.Results.length = s.Results.length + 1 ∧
      s'.Results.take s.Results.length = s.Results ∧
      s'.Seq = (s.Seq + 1) % 65536 := by
  obtain ⟨s', res, h1, h2, h3⟩ := sendAndReceive_completes s env h
  refine ⟨s', res, h1, h3, ?_, ?_, h2⟩
  · rw [h3]; simp
  · rw [h3]; simp

/-- C12, at an engine with one earlier result and `Seq = 65535`, for a call
that ends with a read error. -/
theorem one_result_per_attempt_witness :
    ∃ s' res,
      SendAndReceive
          { NewSender Default with Seq := 65535, Results := [⟨none, 10, 12⟩] }
          ⟨Except.ok (1, 2), Except.ok 3, none, none, 4000, none,
           [ReadEvent.failed (Error.transport 9)], 4001⟩ = some (s', res) ∧
        s'.Results = [⟨none, 10, 12⟩] ++ [⟨res, 4000, 4001⟩] ∧
        s'.Results.length = 1 + 1 ∧
        s'.Results.take 1 = [⟨none, 10, 12⟩] ∧
        s'.Seq = (65535 + 1) % 65536 :=
  one_result_per_attempt
    { NewSender Default with Seq := 65535, Results := [⟨none, 10, 12⟩] }
    ⟨Except.ok (1, 2), Except.ok 3, none, none, 4000, none,
     [ReadEvent.failed (Error.transport 9)], 4001⟩ (by decide)

/-- With IP version 4 or 6, `EnsureSocketOpen` succeeds, keeping every
field but the connections, when the engine has a connection or opening the
socket succeeds. -/
theorem ensureSocketOpen_ok (s : Sender) (listen : Except Error Nat)
    (hv : s.Config.IPVersion = 4 ∨ s.Config.IPVersion = 6)
    (hc : s.Conn ≠ none ∨ ∃ conn, listen = Except.ok conn) :
    (EnsureSocketOpen s listen).2 = none := by
  have h46 : ¬ ((6 : Int) = 4) := by decide
  unfold EnsureSocketOpen
  cases hconn : s.Conn with
  | some c => rfl
  | none =>
    rcases hc with hc | ⟨conn, hl⟩
    · exact absurd hconn hc
    · subst hl
      rcases hv with hv | hv
      · simp [hv]
      · simp [hv]

/-- C13: a call of `SendAndReceive` that stops before the packet is written
returns the failure and leaves `Seq` and `Results` as they were: the error of
opening the socket; `BadIPVersion` for an IP version other than 4 and 6;
`BadIPAddress` when the destination does not resolve, whatever the cause; the
error of the write. -/
theorem setup_failures_atomic (s : Sender) (env : Env) :
    (∀ e, s.Conn = none → (s.Config.IPVersion = 4 ∨ s.Config.IPVersion = 6) →
      env.listen = Except.error e →
      ∃ s', SendAndReceive s env = some (s', some e) ∧
        s'.Seq = s.Seq ∧ s'.Results = s.Results) ∧
    (s.Config.IPVersion ≠ 4 → s.Config.IPVersion ≠ 6 →
      ∃ s', SendAndReceive s env = some (s', some Error.BadIPVersion) ∧
        s'.Seq = s.Seq ∧ s'.Results = s.Results) ∧
    ((s.Config.IPVersion = 4 ∨ s.Config.IPVersion = 6) →
      (s.Conn ≠ none ∨ ∃ conn, env.listen = Except.ok conn) → s.Config.Payload ≠ [] →
      (∀ cause, env.resolve = some cause →
        ∃ s', SendAndReceive s env = some (s', some Error.BadIPAddress) ∧
          s'.Seq = s.Seq ∧ s'.Results = s.Results) ∧
      (∀ e, env.resolve = none → env.write = some e →
        ∃ s', SendAndReceive s env = some (s', some e) ∧
          s'.Seq = s.Seq ∧ s'.Results = s.Results)) := by
  obtain ⟨f1, f2, f3, f4⟩ := ensureID_fields s env.rand
  obtain ⟨g1, g2, g3, _⟩ := ensureSocketOpen_fields (EnsureID s env.rand).1 env.listen
  refine ⟨?_, ?_, ?_⟩
  · intro e hc hv hl
    have h46 : ¬ ((6 : Int) = 4) := by decide
    have hE : EnsureSocketOpen (EnsureID s env.rand).1 env.listen
        = ((EnsureID s env.rand).1, some e) := by
      unfold EnsureSocketOpen
      rw [f4, hc, f3, hl]
      rcases hv with hv | hv <;> simp [hv]
    refine ⟨(EnsureID s env.rand).1, ?_, f1, f2⟩
    simp only [SendAndReceive, hE]
  · intro h4 h6
    cases hE : EnsureSocketOpen (EnsureID s env.rand).1 env.listen with
    | mk s2 e2 =>
      rw [hE] at g1 g2 g3
      dsimp only at g1 g2 g3
      cases e2 with
      | some e =>
        have he : e = Error.BadIPVersion := by
          have h := congrArg Prod.snd hE
          unfold EnsureSocketOpen at h
          rw [f3] at h
          cases hconn : (EnsureID s env.rand).1.Conn with
          | some c => simp [hconn] at h
          | none =>
            simp only [hconn, h4, h6, ne_eq, not_false_eq_true, and_self, if_true] at h
            exact (Option.some.inj h).symm
        subst he
        refine ⟨s2, ?_, by rw [g1, f1], by rw [g2, f2]⟩
        simp only [SendAndReceive, hE]
      | none =>
        have hcraft : CraftPacket s2 = some (Except.error Error.BadIPVersion) :=
          craftPacket_other_version s2 (by rw [g3, f3]; exact h4) (by rw [g3, f3]; exact h6)
        refine ⟨s2, ?_, by rw [g1, f1], by rw [g2, f2]⟩
        simp only [SendAndReceive, hE, hcraft]
  · intro hv hc hne
    have hopen := ensureSocketOpen_ok (EnsureID s env.rand).1 env.listen
      (by rw [f3]; exact hv) (by rw [f4]; exact hc)
    cases hE : EnsureSocketOpen (EnsureID s env.rand).1 env.listen with
    | mk s2 e2 =>
      rw [hE] at g1 g2 g3 hopen
      dsimp only at g1 g2 g3 hopen
      subst hopen
      obtain ⟨pkt, hcraft⟩ := craftPacket_returns s2 (by rw [g3, f3]; exact hne)
        (by rw [g3, f3]; exact hv)
      refine ⟨?_, ?_⟩
      · intro cause hr
        refine ⟨s2, ?_, by rw [g1, f1], by rw [g2, f2]⟩
        simp only [SendAndReceive, hE, hcraft, hr]
      · intro e hr hw
        refine ⟨s2, ?_, by rw [g1, f1], by rw [g2, f2]⟩
        simp only [SendAndReceive, hE, hcraft, hr, hw]

/-- C13, on a new engine with the default configuration: the socket cannot be
opened; the destination does not resolve; the write fails. Each time the
failure is returned, `Seq` is 0 and `Results` is empty. -/
theorem setup_failures_atomic_witness :
    (∃ s', SendAndReceive (NewSender Default)
        ⟨Except.ok (1, 2), Except.error (Error.transport 13), none, none, 0, none, [], 0⟩
          = some (s', some (Error.transport 13)) ∧
        s'.Seq = 0 ∧ s'.Results = []) ∧
    (∃ s', SendAndReceive (NewSender Default)
        ⟨Except.ok (1, 2), Except.ok 3, some (Error.transport 2), none, 0, none, [], 0⟩
          = some (s', some Error.BadIPAddress) ∧
        s'.Seq = 0 ∧ s'.Results = []) ∧
    (∃ s', SendAndReceive (NewSender Default)
        ⟨Except.ok (1, 2), Except.ok 3, none, some (Error.transport 101), 0, none, [], 0⟩
          = some (s', some (Error.transport 101)) ∧
        s'.Seq = 0 ∧ s'.Results = []) :=
  ⟨(setup_failures_atomic (NewSender Default)
      ⟨Except.ok (1, 2), Except.error (Error.transport 13), none, none, 0, none, [], 0⟩).1
      (Error.transport 13) rfl (Or.inl rfl) rfl,
   ((setup_failures_atomic (NewSender Default)
      ⟨Except.ok (1, 2), Except.ok 3, some (Error.transport 2), none, 0, none, [], 0⟩).2.2
      (Or.inl rfl) (Or.inr ⟨3, rfl⟩) (by decide)).1 (Error.transport 2) rfl,
   ((setup_failures_atomic (NewSender Default)
      ⟨Except.ok (1, 2), Except.ok 3, none, some (Error.transport 101), 0, none, [], 0⟩).2.2
      (Or.inl rfl) (Or.inr ⟨3, rfl⟩) (by decide)).2 (Error.transport 101) rfl rfl⟩

/-! ## GetNext and the patterns -/

/-- `GetNext` returns the argument behind `pos` when there is one. -/
theorem getNext_some (arr : List String) (pos : Nat) (x : String) (h : arr[pos + 1]? = some x) :
    GetNext arr (pos : Int) = some (x, none) := by
  have hlt : pos + 1 < arr.length := by
    by_contra hc
    rw [List.getElem?_eq_none (by omega)] at h
    exact absurd h (by simp)
  have h1 : ¬ ((pos : Int) + 1 > (arr.length : Int)) := by omega
  have h2 : ¬ ((pos : Int) + 1 < 0) := by omega
  have h3 : ((pos : Int) + 1).toNat = pos + 1 := by omega
  simp only [GetNext, h1, h2, if_false, h3, h]

/-- `GetNext` at the last index reads behind the end of the array. -/
theorem getNext_last (arr : List String) (pos : Nat) (h : pos + 1 = arr.length) :
    GetNext arr (pos : Int) = none := by
  have h1 : ¬ ((pos : Int) + 1 > (arr.length : Int)) := by omega
  have h2 : ¬ ((pos : Int) + 1 < 0) := by omega
  have h3 : ((pos : Int) + 1).toNat = pos + 1 := by omega
  have h4 : arr[pos + 1]? = none := List.getElem?_eq_none (by omega)
  simp only [GetNext, h1, h2, if_false, h3, h4]

/-- No suffix of `cs` starts a match when no character of `cs` does. -/
theorem matchChars_false (re : Regex) (P : Char → Prop) (h0 : re.remainders [] = [])
    (h1 : ∀ x xs, P x → re.remainders (x :: xs) = []) :
    ∀ cs : List Char, (∀ x ∈ cs, P x) → matchChars re cs = false := by
  intro cs
  induction cs with
  | nil => intro _; simp [matchChars, h0]
  | cons x xs ih =>
    intro h
    have hx := h1 x xs (h x (List.mem_cons_self _ _))
    have hxs := ih (fun y hy => h y (List.mem_cons_of_mem _ hy))
    unfold matchChars at hxs ⊢
    simp only [List.tails, List.any_cons, hx, List.isEmpty_nil, Bool.not_true, Bool.false_or]
    exact hxs

/-- A digit or a dot is none of the characters a keyword pattern starts with. -/
theorem plain_char (x : Char) (h : (x.isDigit || x == '.') = true) :
    x ≠ '?' ∧ x ≠ '-' ∧ x ≠ 'h' ∧ x ≠ 'i' ∧ x ≠ 'c' ∧ x ≠ 's' ∧ x ≠ 'p' ∧ x ≠ 't' := by
  refine ⟨?_, ?_, ?_, ?_, ?_, ?_, ?_, ?_⟩ <;> (intro hc; subst hc; revert h; decide)

/-- A dotted-decimal argument matches none of the patterns. -/
theorem dotted_no_match (d : String) (h : dottedDecimal d = true) :
    MatchString HelpRe d = false ∧ MatchString CountRe d = false ∧
    MatchString SizeRe d = false ∧ MatchString IPv4Re d = false ∧
    MatchString IPv6Re d = false ∧ MatchString PayloadRe d = false ∧
    MatchString TTLRe d = false ∧ MatchString TimeoutRe d = false := by
  have hall : ∀ x ∈ d.toList, (x.isDigit || x == '.') = true := by
    simpa [dottedDecimal] using h
  refine ⟨?_, ?_, ?_, ?_, ?_, ?_, ?_, ?_⟩ <;>
    refine matchChars_false _ (fun x => (x.isDigit || x == '.') = true) (by decide) ?_ _ hall <;>
    intro x xs hx <;>
    obtain ⟨a1, a2, a3, a4, a5, a6, a7, a8⟩ := plain_char x hx <;>
    simp [HelpRe, CountRe, SizeRe, IPv4Re, IPv6Re, PayloadRe, TTLRe, TimeoutRe, Regex.seqs,
      Regex.remainders, a1, a2, a3, a4, a5, a6, a7, a8]


/-! ## ParseArgs: one iteration -/

/-- One iteration of the loop on a `count` keyword followed by a number. -/
theorem parseLoop_count (args : List String) (fuel pos : Nat) (c : Config) (cur a : String)
    (n : Int) (hcur : args[pos]? = some cur) (hH : MatchString HelpRe cur = false)
    (hC : MatchString CountRe cur = true) (ha : args[pos + 1]? = some a)
    (hn : Atoi a = (n, none)) :
    parseLoop args (fuel + 1) pos c = parseLoop args fuel (pos + 2) { c with Count := n } := by
  simp only [parseLoop, hcur, hH, hC, getNext_some args pos a ha, hn, Bool.false_eq_true,
    if_false, if_true]

/-- One iteration of the loop on a `size` keyword followed by a number. -/
theorem parseLoop_size (args : List String) (fuel pos : Nat) (c : Config) (cur a : String)
    (n : Int) (hcur : args[pos]? = some cur) (hH : MatchString HelpRe cur = false)
    (hC : MatchString CountRe cur = false) (hS : MatchString SizeRe cur = true)
    (ha : args[pos + 1]? = some a) (hn : Atoi a = (n, none)) :
    parseLoop args (fuel + 1) pos c = parseLoop args fuel (pos + 2) { c with Size := n } := by
  simp only [parseLoop, hcur, hH, hC, hS, getNext_some args pos a ha, hn, Bool.false_eq_true,
    if_false, if_true]

/-- One iteration of the loop on an `ipv4` keyword. -/
theorem parseLoop_ipv4 (args : List String) (fuel pos : Nat) (c : Config) (cur : String)
    (hcur : args[pos]? = some cur) (hH : MatchString HelpRe cur = false)
    (hC : MatchString CountRe cur = false) (hS : MatchString SizeRe cur = false)
    (h4 : MatchString IPv4Re cur = true) :
    parseLoop args (fuel + 1) pos c = parseLoop args fuel (pos + 1) { c with IPVersion := 4 } := by
  simp only [parseLoop, hcur, hH, hC, hS, h4, Bool.false_eq_true, if_false, if_true]

/-- One iteration of the loop on an `ipv6` keyword. -/
theorem parseLoop_ipv6 (args : List String) (fuel pos : Nat) (c : Config) (cur : String)
    (hcur : args[pos]? = some cur) (hH : MatchString HelpRe cur = false)
    (hC : MatchString CountRe cur = false) (hS : MatchString SizeRe cur = false)
    (h4 : MatchString IPv4Re cur = false) (h6 : MatchString IPv6Re cur = true) :
    parseLoop args (fuel + 1) pos c = parseLoop args fuel (pos + 1) { c with IPVersion := 6 } := by
  simp only [parseLoop, hcur, hH, hC, hS, h4, h6, Bool.false_eq_true, if_false, if_true]

/-- One iteration of the loop on a `payload` keyword followed by a value. -/
theorem parseLoop_payload (args : List String) (fuel pos : Nat) (c : Config) (cur a : String)
    (hcur : args[pos]? = some cur) (hH : MatchString HelpRe cur = false)
    (hC : MatchString CountRe cur = false) (hS : MatchString SizeRe cur = false)
    (h4 : MatchString IPv4Re cur = false) (h6 : MatchString IPv6Re cur = false)
    (hP : MatchString PayloadRe cur = true) (ha : args[pos + 1]? = some a) :
    parseLoop args (fuel + 1) pos c =
      parseLoop args fuel (pos + 2) { c with Payload := bytesOf a } := by
  simp only [parseLoop, hcur, hH, hC, hS, h4, h6, hP, getNext_some args pos a ha,
    Bool.false_eq_true, if_false, if_true]

/-- One iteration of the loop on a `ttl` keyword followed by a number. -/
theorem parseLoop_ttl (args : List String) (fuel pos : Nat) (c : Config) (cur a : String)
    (n : Int) (hcur : args[pos]? = some cur) (hH : MatchString HelpRe cur = false)
    (hC : MatchString CountRe cur = false) (hS : MatchString SizeRe cur = false)
    (h4 : MatchString IPv4Re cur = false) (h6 : MatchString IPv6Re cur = false)
    (hP : MatchString PayloadRe cur = false) (hT : MatchString TTLRe cur = true)
    (ha : args[pos + 1]? = some a) (hn : Atoi a = (n, none)) :
    parseLoop args (fuel + 1) pos c = parseLoop args fuel (pos + 2) { c with TTL := n } := by
  simp only [parseLoop, hcur, hH, hC, hS, h4, h6, hP, hT, getNext_some args pos a ha, hn,
    Bool.false_eq_true, if_false, if_true]

/-- One iteration of the loop on a `timeout` keyword followed by a number. -/
theorem parseLoop_timeout (args : List String) (fuel pos : Nat) (c : Config) (cur a : String)
    (n : Int) (hcur : args[pos]? = some cur) (hH : MatchString HelpRe cur = false)
    (hC : MatchString CountRe cur = false) (hS : MatchString SizeRe cur = false)
    (h4 : MatchString IPv4Re cur = false) (h6 : MatchString IPv6Re cur = false)
    (hP : MatchString PayloadRe cur = false) (hT : MatchString TTLRe cur = false)
    (hO : MatchString TimeoutRe cur = true)
    (ha : args[pos + 1]? = some a) (hn : Atoi a = (n, none)) :
    parseLoop args (fuel + 1) pos c =
      parseLoop args fuel (pos + 2) { c with TimeoutSecs := n } := by
  simp only [parseLoop, hcur, hH, hC, hS, h4, h6, hP, hT, hO, getNext_some args pos a ha, hn,
    Bool.false_eq_true, if_false, if_true]

/-- One iteration of the loop on a dotted-decimal argument: it is no keyword. -/
theorem parseLoop_dotted (args : List String) (fuel pos : Nat) (c : Config) (cur : String)
    (hcur : args[pos]? = some cur) (hd : dottedDecimal cur = true) :
    parseLoop args (fuel + 1) pos c = parseLoop args fuel (pos + 1) c := by
  obtain ⟨hH, hC, hS, h4, h6, hP, hT, hO⟩ := dotted_no_match cur hd
  simp only [parseLoop, hcur, hH, hC, hS, h4, h6, hP, hT, hO, Bool.false_eq_true, if_false]

/-- The loop ends behind the last argument. -/
theorem parseLoop_end (args : List String) (fuel pos : Nat) (c : Config)
    (hcur : args[pos]? = none) :
    parseLoop args (fuel + 1) pos c = some (c, none) := by
  simp only [parseLoop, hcur]

/-- A non-empty beginning of `count` is read as the count keyword. -/
theorem count_keyword (k : String) (hne : k ≠ "") (hp : k.toList <+: "count".toList) :
    MatchString HelpRe k = false ∧ MatchString CountRe k = true := by
  have hmem : k.toList ∈ List.inits "count".toList := (List.mem_inits _ _).mpr hp
  have hin : List.inits "count".toList =
      [[], ['c'], ['c', 'o'], ['c', 'o', 'u'], ['c', 'o', 'u', 'n'],
       ['c', 'o', 'u', 'n', 't']] := by decide
  rw [hin] at hmem
  simp only [List.mem_cons, List.mem_singleton, List.not_mem_nil, or_false] at hmem
  unfold MatchString
  rcases hmem with h | h | h | h | h | h
  · exact absurd (String.ext h) hne
  all_goals (rw [h]; decide)

/-- A non-empty beginning of `size` is read as the size keyword. -/
theorem size_keyword (k : String) (hne : k ≠ "") (hp : k.toList <+: "size".toList) :
    MatchString HelpRe k = false ∧ MatchString CountRe k = false ∧
    MatchString SizeRe k = true := by
  have hmem : k.toList ∈ List.inits "size".toList := (List.mem_inits _ _).mpr hp
  have hin : List.inits "size".toList =
      [[], ['s'], ['s', 'i'], ['s', 'i', 'z'], ['s', 'i', 'z', 'e']] := by decide
  rw [hin] at hmem
  simp only [List.mem_cons, List.mem_singleton, List.not_mem_nil, or_false] at hmem
  unfold MatchString
  rcases hmem with h | h | h | h | h
  · exact absurd (String.ext h) hne
  all_goals (rw [h]; decide)

/-- A non-empty beginning of `payload` is read as the payload keyword. -/
theorem payload_keyword (k : String) (hne : k ≠ "") (hp : k.toList <+: "payload".toList) :
    MatchString HelpRe k = false ∧ MatchString CountRe k = false ∧
    MatchString SizeRe k = false ∧ MatchString IPv4Re k = false ∧
    MatchString IPv6Re k = false ∧ MatchString PayloadRe k = true := by
  have hmem : k.toList ∈ List.inits "payload".toList := (List.mem_inits _ _).mpr hp
  have hin : List.inits "payload".toList =
      [[], ['p'], ['p', 'a'], ['p', 'a', 'y'], ['p', 'a', 'y', 'l'],
       ['p', 'a', 'y', 'l', 'o'], ['p', 'a', 'y', 'l', 'o', 'a'],
       ['p', 'a', 'y', 'l', 'o', 'a', 'd']] := by decide
  rw [hin] at hmem
  simp only [List.mem_cons, List.mem_singleton, List.not_mem_nil, or_false] at hmem
  unfold MatchString
  rcases hmem with h | h | h | h | h | h | h | h
  · exact absurd (String.ext h) hne
  all_goals (rw [h]; decide)

/-- C16: starting from `Default`, for every non-empty beginning `kc` of
`count`, `ks` of `size` and `kp` of `payload`, all arguments `a1` and `a2`
that `Atoi` reads as the numbers `n1` and `n2`, every value `v` and every
dotted-decimal destination `d`, `ParseArgs [kc, a1, ks, a2, kp, v, d]` returns
no error and sets `Count = n1`, `Size = n2`, `Payload` = the bytes of `v` and
`DestIP = d`, whatever the values look like; likewise `[ttl, a, d]` sets
`TTL` and `[timeout, a, d]` sets `TimeoutSecs` to the number `a` reads as. -/
theorem parseArgs_keywords (kc ks kp a1 a2 v d : String) (n1 n2 : Int)
    (hkc : kc ≠ "" ∧ kc.toList <+: "count".toList)
    (hks : ks ≠ "" ∧ ks.toList <+: "size".toList)
    (hkp : kp ≠ "" ∧ kp.toList <+: "payload".toList)
    (h1 : Atoi a1 = (n1, none)) (h2 : Atoi a2 = (n2, none))
    (hd : dottedDecimal d = true) :
    ParseArgs Default [kc, a1, ks, a2, kp, v, d] =
      some ({ Default with Count := n1, Size := n2, Payload := bytesOf v, DestIP := d }, none) ∧
    ParseArgs Default ["ttl", a1, d] = some ({ Default with TTL := n1, DestIP := d }, none) ∧
    ParseArgs Default ["timeout", a1, d] =
      some ({ Default with TimeoutSecs := n1, DestIP := d }, none) := by
  obtain ⟨c1, c2⟩ := count_keyword kc hkc.1 hkc.2
  obtain ⟨s1, s2, s3⟩ := size_keyword ks hks.1 hks.2
  obtain ⟨p1, p2, p3, p4, p5, p6⟩ := payload_keyword kp hkp.1 hkp.2
  refine ⟨?_, ?_, ?_⟩
  · have e1 := parseLoop_count [kc, a1, ks, a2, kp, v, d] 7 0 Default kc a1 n1 rfl c1 c2 rfl h1
    have e2 := parseLoop_size [kc, a1, ks, a2, kp, v, d] 6 2 { Default with Count := n1 }
      ks a2 n2 rfl s1 s2 s3 rfl h2
    have e3 := parseLoop_payload [kc, a1, ks, a2, kp, v, d] 5 4
      { Default with Count := n1, Size := n2 } kp v rfl p1 p2 p3 p4 p5 p6 rfl
    have e4 := parseLoop_dotted [kc, a1, ks, a2, kp, v, d] 4 6
      { Default with Count := n1, Size := n2, Payload := bytesOf v } d rfl hd
    have e5 := parseLoop_end [kc, a1, ks, a2, kp, v, d] 3 7
      { Default with Count := n1, Size := n2, Payload := bytesOf v } rfl
    have e : parseLoop [kc, a1, ks, a2, kp, v, d] 8 0 Default =
        some ({ Default with Count := n1, Size := n2, Payload := bytesOf v }, none) :=
      e1.trans (e2.trans (e3.trans (e4.trans e5)))
    simp only [ParseArgs, List.length_cons, List.length_nil, e]
    rfl
  · have e1 := parseLoop_ttl ["ttl", a1, d] 3 0 Default "ttl" a1 n1 rfl (by decide) (by decide)
      (by decide) (by decide) (by decide) (by decide) (by decide) rfl h1
    have e2 := parseLoop_dotted ["ttl", a1, d] 2 2 { Default with TTL := n1 } d rfl hd
    have e3 := parseLoop_end ["ttl", a1, d] 1 3 { Default with TTL := n1 } rfl
    have e : parseLoop ["ttl", a1, d] 4 0 Default = some ({ Default with TTL := n1 }, none) :=
      e1.trans (e2.trans e3)
    simp only [ParseArgs, List.length_cons, List.length_nil, e]
    rfl
  · have e1 := parseLoop_timeout ["timeout", a1, d] 3 0 Default "timeout" a1 n1 rfl (by decide)
      (by decide) (by decide) (by decide) (by decide) (by decide) (by decide) (by decide) rfl h1
    have e2 := parseLoop_dotted ["timeout", a1, d] 2 2 { Default with TimeoutSecs := n1 } d rfl hd
    have e3 := parseLoop_end ["timeout", a1, d] 1 3 { Default with TimeoutSecs := n1 } rfl
    have e : parseLoop ["timeout", a1, d] 4 0 Default =
        some ({ Default with TimeoutSecs := n1 }, none) :=
      e1.trans (e2.trans e3)
    simp only [ParseArgs, List.length_cons, List.length_nil, e]
    rfl

/-- C16, at the abbreviated arguments of the test of config_test.go, lines
87-99, and with values that look like keywords. -/
theorem parseArgs_keywords_witness :
    ParseArgs Default ["co", "10", "siz", "60", "payl", "hello", "127.0.0.5"] =
      some ({ Default with Count := 10, Size := 60, Payload := bytesOf "hello",
                           DestIP := "127.0.0.5" }, none) ∧
    ParseArgs Default ["c", "-3", "s", "+7", "p", "count", "10.0.0.1"] =
      some ({ Default with Count := -3, Size := 7, Payload := bytesOf "count",
                           DestIP := "10.0.0.1" }, none) :=
  ⟨(parseArgs_keywords "co" "siz" "payl" "10" "60" "hello" "127.0.0.5" 10 60
      ⟨by decide, by decide⟩ ⟨by decide, by decide⟩ ⟨by decide, by decide⟩
      (by decide) (by decide) (by decide)).1,
   (parseArgs_keywords "c" "s" "p" "-3" "+7" "count" "10.0.0.1" (-3) 7
      ⟨by decide, by decide⟩ ⟨by decide, by decide⟩ ⟨by decide, by decide⟩
      (by decide) (by decide) (by decide)).1⟩

/-! ## ParseArgs: the destination -/

/-- When `ParseArgs` returns no error, `DestIP` is the last argument. -/
theorem parseArgs_destIP_last (c c' : Config) (args : List String)
    (h : ParseArgs c args = some (c', none)) :
    args[args.length - 1]? = some c'.DestIP := by
  unfold ParseArgs at h
  cases hl : parseLoop args (args.length + 1) 0 c with
  | none => simp [hl] at h
  | some r =>
    obtain ⟨c1, e⟩ := r
    cases e with
    | some err => simp [hl] at h
    | none =>
      simp only [hl] at h
      split_ifs at h with h0
      cases hlast : args[args.length - 1]? with
      | none => simp [hlast] at h
      | some last =>
        simp only [hlast, Option.some.injEq, Prod.mk.injEq, and_true] at h
        rw [← h]

/-- For every configuration and every dotted-decimal destination `d`,
`ParseArgs [ipv4, d]` returns no error, with `IPVersion = 4` and
`DestIP = d`. -/
theorem parseArgs_ipv4_destination (c : Config) (d : String) (hd : dottedDecimal d = true) :
    ParseArgs c ["ipv4", d] = some ({ c with IPVersion := 4, DestIP := d }, none) := by
  have e1 := parseLoop_ipv4 ["ipv4", d] 2 0 c "ipv4" rfl (by decide) (by decide) (by decide)
    (by decide)
  have e2 := parseLoop_dotted ["ipv4", d] 1 1 { c with IPVersion := 4 } d rfl hd
  have e3 := parseLoop_end ["ipv4", d] 0 2 { c with IPVersion := 4 } rfl
  have e : parseLoop ["ipv4", d] 3 0 c = some ({ c with IPVersion := 4 }, none) :=
    e1.trans (e2.trans e3)
  simp only [ParseArgs, List.length_cons, List.length_nil, e]
  rfl

/-- C17, on the code: the IPv6 address `::c` contains the letter `c`, which
the unanchored pattern of the count keyword matches, so `ParseArgs` reads the
destination as a count keyword and `GetNext` reads behind the end of the
arguments: the call panics instead of returning with `IPVersion = 6` and
`DestIP = ::c`. The address `::1` of the test is accepted. -/
theorem parseArgs_ipv6_destination_with_c :
    MatchString CountRe "::c" = true ∧
    GetNext ["ipv6", "::c"] 1 = none ∧
    ParseArgs { Default with IPVersion := 10 } ["ipv6", "::c"] = none ∧
    ParseArgs { Default with IPVersion := 10 } ["ipv6", "::1"] =
      some ({ Default with IPVersion := 6, DestIP := "::1" }, none) := by
  decide

/-- C18, on the code: `GetNext` with the last index of the array does not
return the error, it reads `arr[index + 1]` behind the end and panics; so does
`ParseArgs` when a keyword that takes a value is the last argument. With an
index behind the array `GetNext` returns the error. -/
theorem getNext_last_index_panics :
    GetNext ["count"] 0 = none ∧
    GetNext ["count"] 1 = some ("", some ParseError.notEnoughArguments) ∧
    ParseArgs Default ["count"] = none ∧
    ParseArgs Default ["10.0.0.1", "ttl"] = none := by
  decide

end Cping
